import Mathlib

/-!
Particle swarm (`src/interface/swarm.hpp`)

A shallow embedding of the device-visible particle context
(`SwarmDeviceContext`) and of the host-side `Swarm` bookkeeping that the
header defines inline, followed by theorems about them.

Modelling conventions

* `Real` (a C++ `double`) is modelled by the exact rationals `ℚ`; every
  concrete input used below is evaluated with exact arithmetic.
* `static_cast<int>` of a `Real` discards the fractional part (truncation
  toward zero); see `castInt`.  The cast keeps the exact integer also beyond
  the range of `int`, where C++ leaves it undefined; the buckets are only
  compared with `0` and `3`.
* block bounds are meant with `min < max` on every axis.  For a zero span the
  source divides by zero; in `ℚ` that quotient is `0`.  Statements about the
  value of a bucket carry `lo < hi` or concrete bounds.
* a `ParArrayND<T>` indexed by a slot is a total map `Int → T`; a write is
  `Function.update`.  The 4x4x4 neighbour table is read through
  `SwarmDeviceContext.readNeighborIndices`, which is defined only inside the
  table's extent.
* an `int` is modelled by `Int`.  The counters of the swarm stay far from the
  32-bit limits (signed overflow is undefined in C++ and outside the model);
  where 32-bit arithmetic is at issue `wrap32` is applied explicitly.
* `printf` output is not modelled.
* the constructor and the pool operations `setPoolMax`, `AddEmptyParticles`,
  `RemoveMarkedParticles` and `Defrag` are declared in the header and defined
  elsewhere; they are modelled from the specification, and their doc comments
  say so.
-/

namespace parthenon

/-! ## Machine arithmetic -/

/-- Reduction of an integer to the 32-bit two's complement range
`[-2^31, 2^31)`, the value an `int` computation yields. -/
def wrap32 (v : Int) : Int :=
  (v + 2147483648) % 4294967296 - 2147483648

/-- The conversion `static_cast<int>(q)` of a `Real`: the fractional part is
discarded, so the result is the integer part of `q` rounded toward zero. -/
def castInt (q : ℚ) : Int :=
  Int.tdiv q.num (q.den : Int)

/-! ## `SwarmDeviceContext` -/

/-- The private data of `SwarmDeviceContext` (swarm.hpp lines 95-112). -/
structure SwarmDeviceContext where
  x_min_ : ℚ
  x_max_ : ℚ
  y_min_ : ℚ
  y_max_ : ℚ
  z_min_ : ℚ
  z_max_ : ℚ
  x_min_global_ : ℚ
  x_max_global_ : ℚ
  y_min_global_ : ℚ
  y_max_global_ : ℚ
  z_min_global_ : ℚ
  z_max_global_ : ℚ
  marked_for_removal_ : Int → Bool
  mask_ : Int → Bool
  blockIndex_ : Int → Int
  neighbor_send_index_ : Int → Int
  neighborIndices_ : Int → Int → Int → Int
  ndim_ : Int

namespace SwarmDeviceContext

/-- The constant `this_block_` (line 114). -/
def this_block_ : Int := -1

/-- `IsActive` (line 46). -/
def IsActive (c : SwarmDeviceContext) (n : Int) : Bool :=
  c.mask_ n

/-- `IsOnCurrentMeshBlock` (line 49). -/
def IsOnCurrentMeshBlock (c : SwarmDeviceContext) (n : Int) : Bool :=
  c.blockIndex_ n == this_block_

/-- `MarkParticleForRemoval` (line 52): the context after the write. -/
def MarkParticleForRemoval (c : SwarmDeviceContext) (n : Int) : SwarmDeviceContext :=
  { c with marked_for_removal_ := Function.update c.marked_for_removal_ n true }

/-- `IsMarkedForRemoval` (line 55). -/
def IsMarkedForRemoval (c : SwarmDeviceContext) (n : Int) : Bool :=
  c.marked_for_removal_ n

/-- The bucket expression of lines 61-63 (repeated on lines 77, 80-81 and
84-86) for one axis: `static_cast<int>((p - lo) / ((hi - lo) / 2.)) + 1`. -/
def bucket (p lo hi : ℚ) : Int :=
  castInt ((p - lo) / ((hi - lo) / 2)) + 1

/-- A read `neighborIndices_(k, j, i)` of the 4x4x4 table: defined inside the
extent of the table only. -/
def readNeighborIndices (c : SwarmDeviceContext) (k j i : Int) : Option Int :=
  if 0 ≤ k ∧ k ≤ 3 ∧ 0 ≤ j ∧ j ≤ 3 ∧ 0 ≤ i ∧ i ≤ 3 then
    some (c.neighborIndices_ k j i)
  else
    none

/-- The write `blockIndex_(n) = v`. -/
def setBlockIndex (c : SwarmDeviceContext) (n v : Int) : SwarmDeviceContext :=
  { c with blockIndex_ := Function.update c.blockIndex_ n v }

/-- What a call of `GetNeighborBlockIndex` leaves behind: the context after
the call, whether `PARTHENON_FAIL` was signalled, and the value returned
(after a signalled failure: the value returned if execution continues).  The
value is `none` when the table was read outside its extent. -/
structure NeighborResult where
  ctx : SwarmDeviceContext
  failed : Bool
  value : Option Int

/-- The table entry the non-failing path of `GetNeighborBlockIndex` reads
(lines 76-88), for buckets `i j k`; the source recomputes the buckets there
with the expressions of lines 61-63. -/
def neighborEntry (c : SwarmDeviceContext) (i j k : Int) : Option Int :=
  if c.ndim_ = 1 then
    c.readNeighborIndices 0 0 i
  else if c.ndim_ = 2 then
    c.readNeighborIndices 0 j i
  else
    c.readNeighborIndices k j i

/-- The index triple `(k, j, i)` at which the non-failing path reads the
table (lines 78, 82 and 87), for buckets `i j k`. -/
def lookupIndex (c : SwarmDeviceContext) (i j k : Int) : Int × Int × Int :=
  if c.ndim_ = 1 then
    (0, 0, i)
  else if c.ndim_ = 2 then
    (0, j, i)
  else
    (k, j, i)

/-- `GetNeighborBlockIndex` (lines 58-91). -/
def GetNeighborBlockIndex (c : SwarmDeviceContext) (n : Int) (x y z : ℚ) : NeighborResult :=
  let i := bucket x c.x_min_ c.x_max_
  let j := bucket y c.y_min_ c.y_max_
  let k := bucket z c.z_min_ c.z_max_
  if i < 0 ∨ i > 3 ∨ ((j < 0 ∨ j > 3) ∧ c.ndim_ > 1) ∨ ((k < 0 ∨ k > 3) ∧ c.ndim_ > 2) then
    { ctx := c.setBlockIndex n (-2), failed := true, value := some (-2) }
  else
    match c.neighborEntry i j k with
    | some v =>
      let c1 := c.setBlockIndex n v
      { ctx := c1, failed := false, value := some (c1.blockIndex_ n) }
    | none => { ctx := c, failed := false, value := none }

/-- The part of a context that `GetNeighborBlockIndex` reads besides the
position: the block bounds, the dimensionality and the neighbour table. -/
def geometry (c : SwarmDeviceContext) :
    (ℚ × ℚ) × (ℚ × ℚ) × (ℚ × ℚ) × Int × (Int → Int → Int → Int) :=
  ((c.x_min_, c.x_max_), (c.y_min_, c.y_max_), (c.z_min_, c.z_max_), c.ndim_,
    c.neighborIndices_)

/-- A call a kernel can make on the device context. -/
inductive Call where
  | mark (n : Int)
  | neighbor (n : Int) (x y z : ℚ)

/-- The context after one call. -/
def Call.run (c : SwarmDeviceContext) : Call → SwarmDeviceContext
  | Call.mark n => c.MarkParticleForRemoval n
  | Call.neighbor n x y z => (c.GetNeighborBlockIndex n x y z).ctx

/-- The context after a sequence of calls, first call first. -/
def runCalls (c : SwarmDeviceContext) (calls : List Call) : SwarmDeviceContext :=
  calls.foldl Call.run c

/-- The context `c` with its slot arrays replaced. -/
def withArrays (c : SwarmDeviceContext) (marked mask : Int → Bool)
    (blockIndex sendIndex : Int → Int) : SwarmDeviceContext :=
  { c with marked_for_removal_ := marked, mask_ := mask, blockIndex_ := blockIndex,
           neighbor_send_index_ := sendIndex }

/-- A context for the block `[0,1]^3` with the given dimensionality: no slot
is active or marked, every destination index is `this_block_`, and the table
entry at `(k, j, i)` is `16 k + 4 j + i`, so that distinct entries are
told apart. -/
def unitBlock (ndim : Int) : SwarmDeviceContext :=
  { x_min_ := 0, x_max_ := 1, y_min_ := 0, y_max_ := 1, z_min_ := 0, z_max_ := 1,
    x_min_global_ := 0, x_max_global_ := 1, y_min_global_ := 0, y_max_global_ := 1,
    z_min_global_ := 0, z_max_global_ := 1,
    marked_for_removal_ := fun _ => false,
    mask_ := fun _ => false,
    blockIndex_ := fun _ => this_block_,
    neighbor_send_index_ := fun _ => -1,
    neighborIndices_ := fun k j i => 16 * k + 4 * j + i,
    ndim_ := ndim }

end SwarmDeviceContext

/-! ## `Swarm` -/

/-- A `std::weak_ptr<T>`: never set, set to an object that has since been
destroyed, or referring to a live object. -/
inductive WeakPtr (α : Type) where
  | unset : WeakPtr α
  | dangling : WeakPtr α
  | live (target : α) : WeakPtr α

/-- `std::weak_ptr::expired`. -/
def WeakPtr.expired {α : Type} : WeakPtr α → Bool
  | WeakPtr.live _ => false
  | _ => true

/-- `std::weak_ptr::lock`: a shared pointer, null (`none`) unless the
reference is live. -/
def WeakPtr.lock {α : Type} : WeakPtr α → Option α
  | WeakPtr.live b => some b
  | _ => none

/-- The data members of `Swarm` that the inline member functions of the header
and the pool bookkeeping use (lines 203-204, 269-283, 294-296).  The types
`MeshBlock` and `BoundarySwarm` are declared elsewhere and are parameters;
`vbvar` is taken to be allocated. -/
structure Swarm (MeshBlock BoundarySwarm : Type) where
  vbvar : BoundarySwarm
  mpiStatus : Bool
  swarm_num_incomplete_ : Int
  global_num_incomplete_ : Int
  local_num_completed_ : Int
  global_num_completed_ : Int
  num_particles_sent_ : Int
  finished_transport : Bool
  pmy_block : WeakPtr MeshBlock
  nmax_pool_ : Int
  max_active_index_ : Int
  num_active_ : Int
  free_indices_ : List Int
  mask_ : Int → Bool
  marked_for_removal_ : Int → Bool

namespace Swarm

variable {MeshBlock BoundarySwarm Phase : Type}

/-- `GetBlockPointer` (lines 122-127): `PARTHENON_THROW` is the error case,
the returned shared pointer may a priori be null (`none`). -/
def GetBlockPointer (s : Swarm MeshBlock BoundarySwarm) : Except String (Option MeshBlock) :=
  if s.pmy_block.expired then
    Except.error "Invalid pointer to MeshBlock!"
  else
    Except.ok s.pmy_block.lock

/-- `SetBlockPointer` (line 132). -/
def SetBlockPointer (s : Swarm MeshBlock BoundarySwarm) (pmb : WeakPtr MeshBlock) :
    Swarm MeshBlock BoundarySwarm :=
  { s with pmy_block := pmb }

/-- `get_max_active_index` (line 182). -/
def get_max_active_index (s : Swarm MeshBlock BoundarySwarm) : Int :=
  s.max_active_index_

/-- `get_num_active` (line 185). -/
def get_num_active (s : Swarm MeshBlock BoundarySwarm) : Int :=
  s.num_active_

/-- `get_packing_efficiency` (line 189): both operands are `int`, so the
quotient is the truncating integer quotient, converted to `Real` afterwards.
The result is `none` when the integer division is undefined (zero divisor). -/
def get_packing_efficiency (s : Swarm MeshBlock BoundarySwarm) : Option ℚ :=
  if s.max_active_index_ + 1 = 0 then
    none
  else
    some ((Int.tdiv s.num_active_ (s.max_active_index_ + 1) : Int) : ℚ)

/-- `MPI_Allreduce(MPI_IN_PLACE, &v, 1, MPI_INT, MPI_SUM, MPI_COMM_WORLD)` as
seen by one rank: `others` holds the values contributed by the other ranks,
and is empty in a single-rank run or in a build without `MPI_PARALLEL`,
where the call is absent and `v` stays as it is. -/
def allreduceSum (v : Int) (others : List Int) : Int :=
  v + others.sum

/-- `StartCommunication` (lines 236-253): the swarm after the call and the
value returned.  `StartReceiving` is the member of `BoundarySwarm` called on
`vbvar`; `others` are the contributions of the other ranks to the
reduction. -/
def StartCommunication (StartReceiving : BoundarySwarm → Phase → BoundarySwarm)
    (others : List Int) (s : Swarm MeshBlock BoundarySwarm) (phase : Phase) :
    Swarm MeshBlock BoundarySwarm × Bool :=
  let s1 := { s with mpiStatus := false }
  let s2 := { s1 with global_num_incomplete_ := 3 }
  let s3 := { s2 with local_num_completed_ := 0 }
  let s4 := { s3 with global_num_incomplete_ := allreduceSum s3.global_num_incomplete_ others }
  let s5 := { s4 with vbvar := StartReceiving s4.vbvar phase }
  (s5, true)

/-- `SillyUpdate` (lines 254-265): the swarm after the call and the value
returned. -/
def SillyUpdate (s : Swarm MeshBlock BoundarySwarm) : Swarm MeshBlock BoundarySwarm × Bool :=
  if s.mpiStatus = true then
    (s, true)
  else
    ({ s with local_num_completed_ := s.local_num_completed_ + 1 }, false)

/-- The swarm after `k` consecutive calls of `SillyUpdate`. -/
def pollTimes : Nat → Swarm MeshBlock BoundarySwarm → Swarm MeshBlock BoundarySwarm
  | 0, s => s
  | k + 1, s => pollTimes k (SillyUpdate s).1

/-- A swarm with the given pool counters, no owning block, no communication
under way and every slot inactive; `MeshBlock` and `BoundarySwarm` are
instantiated by `Unit`. -/
def poolState (nmax_pool max_active_index num_active : Int) : Swarm Unit Unit :=
  { vbvar := (), mpiStatus := false, swarm_num_incomplete_ := 0,
    global_num_incomplete_ := 0, local_num_completed_ := 0, global_num_completed_ := 0,
    num_particles_sent_ := 0, finished_transport := false,
    pmy_block := WeakPtr.unset,
    nmax_pool_ := nmax_pool, max_active_index_ := max_active_index,
    num_active_ := num_active, free_indices_ := [],
    mask_ := fun _ => false, marked_for_removal_ := fun _ => false }

/-- A swarm with mesh blocks named by numbers whose `mpiStatus` is set and
whose local completed count is `completed`. -/
def completedState (completed : Int) : Swarm Nat Unit :=
  { vbvar := (), mpiStatus := true, swarm_num_incomplete_ := 0,
    global_num_incomplete_ := 3, local_num_completed_ := completed,
    global_num_completed_ := 0, num_particles_sent_ := 0, finished_transport := false,
    pmy_block := WeakPtr.unset,
    nmax_pool_ := 3, max_active_index_ := 0, num_active_ := 0, free_indices_ := [0, 1, 2],
    mask_ := fun _ => false, marked_for_removal_ := fun _ => false }

/-! ### The particle pool -/

/-- `increasePoolMax` (line 173): `setPoolMax(2 * nmax_pool_)`, the product
being an `int`.  `setPoolMax` is declared on line 176 and defined outside the
header; it is a parameter here. -/
def increasePoolMax {R : Type} (setPoolMax : Swarm MeshBlock BoundarySwarm → Int → R)
    (s : Swarm MeshBlock BoundarySwarm) : R :=
  setPoolMax s (wrap32 (2 * s.nmax_pool_))

/-- The slots `lo, lo + 1, ..., hi - 1`, in increasing order. -/
def slots (lo hi : Int) : List Int :=
  (List.range (hi - lo).toNat).map (fun (i : Nat) => lo + (i : Int))

/-- Modelled from the spec: the constructor `Swarm(label, metadata,
nmax_pool_in = 3)`, declared on line 119 and defined outside the header.  The
pool has capacity `nmax_pool_in`, no slot is active or marked and every slot is
in the free list (in the spec's scenario the first three particles added to a
pool of four get the slots up to index 2); `max_active_index_` and
`num_active_` start at `0` (lines 282-283).  The communication members, left
unset by the header, are given `0` and `false`. -/
def fresh (vbvar : BoundarySwarm) (nmax_pool_in : Int) : Swarm MeshBlock BoundarySwarm :=
  { vbvar := vbvar, mpiStatus := false, swarm_num_incomplete_ := 0,
    global_num_incomplete_ := 0, local_num_completed_ := 0, global_num_completed_ := 0,
    num_particles_sent_ := 0, finished_transport := false,
    pmy_block := WeakPtr.unset,
    nmax_pool_ := nmax_pool_in, max_active_index_ := 0, num_active_ := 0,
    free_indices_ := slots 0 nmax_pool_in,
    mask_ := fun _ => false, marked_for_removal_ := fun _ => false }

/-- Modelled from the spec: `setPoolMax`, declared on line 176 and defined
outside the header: the explicit growth primitive.  A request that is negative
or does not grow the pool is rejected as an invalid argument; otherwise the
capacity becomes `nmax_pool`, the existing slots keep their contents and
indices, and the new trailing slots become available. -/
def setPoolMax (s : Swarm MeshBlock BoundarySwarm) (nmax_pool : Int) :
    Except String (Swarm MeshBlock BoundarySwarm) :=
  if nmax_pool < 0 ∨ nmax_pool ≤ s.nmax_pool_ then
    Except.error "invalid pool size"
  else
    Except.ok { s with nmax_pool_ := nmax_pool,
                       free_indices_ := s.free_indices_ ++ slots s.nmax_pool_ nmax_pool }

/-- Modelled from the spec: the growth loop of `AddEmptyParticles`, "grow
capacity geometrically (double) until `nmax_pool >= num_active + count`", by
repeated `increasePoolMax`.  `fuel` bounds the number of doublings; 32
doublings exhaust the range of `int`. -/
def growPool : Nat → Swarm MeshBlock BoundarySwarm → Int →
    Except String (Swarm MeshBlock BoundarySwarm)
  | 0, s, target =>
    if target ≤ s.nmax_pool_ then Except.ok s else Except.error "pool growth did not finish"
  | fuel + 1, s, target =>
    if target ≤ s.nmax_pool_ then
      Except.ok s
    else
      match increasePoolMax setPoolMax s with
      | Except.ok s1 => growPool fuel s1 target
      | Except.error e => Except.error e

/-- Modelled from the spec: `AddEmptyParticles`, declared on line 195 and
defined outside the header.  It fails if `num_to_add < 0`.  Free-list entries
are reused first; if the free list is exhausted the capacity is doubled until
`nmax_pool >= num_active + num_to_add` and new trailing slots are assigned.
The slots handed out become active, `num_active_` grows by `num_to_add`, and
`max_active_index_` is extended to cover the highest newly used index.  The
result is the swarm after the call and the newly active slot indices. -/
def AddEmptyParticles (s : Swarm MeshBlock BoundarySwarm) (num_to_add : Int) :
    Except String (Swarm MeshBlock BoundarySwarm × List Int) :=
  if num_to_add < 0 then
    Except.error "negative number of particles"
  else
    let grown :=
      if s.free_indices_.length < num_to_add.toNat then
        growPool 64 s (s.num_active_ + num_to_add)
      else
        Except.ok s
    match grown with
    | Except.error e => Except.error e
    | Except.ok s1 =>
      let new_indices := s1.free_indices_.take num_to_add.toNat
      Except.ok
        ({ s1 with free_indices_ := s1.free_indices_.drop num_to_add.toNat,
                   mask_ := fun n => decide (n ∈ new_indices) || s1.mask_ n,
                   num_active_ := s1.num_active_ + num_to_add,
                   max_active_index_ := new_indices.foldl max s1.max_active_index_ },
         new_indices)

/-- Modelled from the spec: `RemoveMarkedParticles`, declared on line 192 and
defined outside the header.  "For every slot with `marked_for_removal == true`,
clears `active`, clears `marked_for_removal`, and returns the slot to the
free-list; decrements `num_active` accordingly.  Does not shrink
`max_active_index`."  The slots are those of the pool, `0 <= n < nmax_pool`. -/
def RemoveMarkedParticles (s : Swarm MeshBlock BoundarySwarm) : Swarm MeshBlock BoundarySwarm :=
  let removed := (slots 0 s.nmax_pool_).filter (fun n => s.marked_for_removal_ n)
  { s with mask_ := fun n => s.mask_ n && !decide (n ∈ removed),
           marked_for_removal_ := fun n => s.marked_for_removal_ n && !decide (n ∈ removed),
           free_indices_ := s.free_indices_ ++ removed,
           num_active_ := s.num_active_ - (removed.length : Int) }

/-- Modelled from the spec: `Defrag`, declared on line 199 and defined outside
the header.  Active slots at or above `num_active` are moved, lowest first,
into the inactive slots below it, the removal flag moving with the particle;
afterwards the active slots are `[0, num_active)`, `max_active_index ==
num_active - 1` and the free list is exactly the slots `>= num_active`. -/
def Defrag (s : Swarm MeshBlock BoundarySwarm) : Swarm MeshBlock BoundarySwarm :=
  let holes := (slots 0 s.num_active_).filter (fun n => !s.mask_ n)
  let movers := (slots s.num_active_ s.nmax_pool_).filter (fun n => s.mask_ n)
  let moves := holes.zip movers
  let source : Int → Int := fun n =>
    match moves.lookup n with
    | some m => m
    | none => n
  { s with mask_ := fun n => decide (0 ≤ n ∧ n < s.num_active_),
           marked_for_removal_ := fun n =>
             decide (0 ≤ n ∧ n < s.num_active_) && s.marked_for_removal_ (source n),
           free_indices_ := slots (max s.num_active_ 0) s.nmax_pool_,
           max_active_index_ := s.num_active_ - 1 }

/-- An operation on the pool: the three pool operations, and the marking of a
slot through the device context, which shares `marked_for_removal_`. -/
inductive PoolOp where
  | add (num_to_add : Int)
  | mark (n : Int)
  | remove
  | defrag

/-- The swarm after one operation; a rejected `AddEmptyParticles` leaves the
swarm as it was. -/
def PoolOp.run (s : Swarm MeshBlock BoundarySwarm) : PoolOp → Swarm MeshBlock BoundarySwarm
  | PoolOp.add num_to_add =>
    match AddEmptyParticles s num_to_add with
    | Except.ok r => r.1
    | Except.error _ => s
  | PoolOp.mark n =>
    { s with marked_for_removal_ := Function.update s.marked_for_removal_ n true }
  | PoolOp.remove => RemoveMarkedParticles s
  | PoolOp.defrag => Defrag s

/-- The swarm after a sequence of operations, first operation first. -/
def runPool (s : Swarm MeshBlock BoundarySwarm) (ops : List PoolOp) :
    Swarm MeshBlock BoundarySwarm :=
  ops.foldl PoolOp.run s

/-- The bookkeeping invariant of the pool counters and the free list, on the
number of active slots, the maximal active index, the capacity and the free
list: the free list and the active slots fit the capacity, every slot above
the maximal active index is free, free slots are slots of the pool, the
capacity is positive, and `num <= maxIdx + 1 <= nmax`. -/
def PoolInvOn (num maxIdx nmax : Int) (free : List Int) : Prop :=
  num + (free.length : Int) ≤ nmax ∧
  (∀ n : Int, 0 ≤ n → maxIdx < n → n < nmax → n ∈ free) ∧
  maxIdx + 1 ≤ nmax ∧
  (∀ n ∈ free, 0 ≤ n ∧ n < nmax) ∧
  1 ≤ nmax ∧
  num ≤ maxIdx + 1

/-- The bookkeeping invariant of a swarm. -/
def PoolInv (s : Swarm MeshBlock BoundarySwarm) : Prop :=
  PoolInvOn s.num_active_ s.max_active_index_ s.nmax_pool_ s.free_indices_

end Swarm

end parthenon

/-! ## Theorems -/

namespace parthenon

open SwarmDeviceContext

/-! ### Bucket arithmetic -/

/-- The cast of a non-negative value is its floor. -/
theorem castInt_of_nonneg {q : ℚ} (h : 0 ≤ q) : castInt q = ⌊q⌋ := by
  unfold castInt
  rw [Rat.floor_def]
  exact Int.tdiv_eq_ediv (Rat.num_nonneg.mpr h) (Int.ofNat_nonneg _)

/-- The cast is odd: truncation is symmetric about zero. -/
theorem castInt_neg (q : ℚ) : castInt (-q) = -castInt q := by
  simp [castInt]

/-- The cast of a non-positive value is its ceiling. -/
theorem castInt_of_nonpos {q : ℚ} (h : q ≤ 0) : castInt q = ⌈q⌉ := by
  have h1 := castInt_of_nonneg (neg_nonneg.mpr h)
  rw [castInt_neg, Int.floor_neg] at h1
  omega

/-- A value strictly between `-1` and `1` is cast to `0`. -/
theorem castInt_eq_zero {q : ℚ} (h1 : -1 < q) (h2 : q < 1) : castInt q = 0 := by
  rcases le_total 0 q with h | h
  · rw [castInt_of_nonneg h, Int.floor_eq_iff]
    constructor
    · simpa using h
    · simpa using h2
  · rw [castInt_of_nonpos h, Int.ceil_eq_iff]
    constructor
    · simpa using h1
    · simpa using h

/-- A value in `[m, m + 1)` with `0 ≤ m` is cast to `m`. -/
theorem castInt_eq_of_nonneg {q : ℚ} {m : Int} (h0 : 0 ≤ m) (h1 : (m : ℚ) ≤ q)
    (h2 : q < m + 1) : castInt q = m := by
  have hq : 0 ≤ q := le_trans (by exact_mod_cast h0) h1
  rw [castInt_of_nonneg hq, Int.floor_eq_iff]
  exact ⟨h1, h2⟩

/-- A value in `(m - 1, m]` with `m ≤ 0` is cast to `m`. -/
theorem castInt_eq_of_nonpos {q : ℚ} {m : Int} (h0 : m ≤ 0) (h1 : (m : ℚ) - 1 < q)
    (h2 : q ≤ m) : castInt q = m := by
  have hq : q ≤ 0 := le_trans h2 (by exact_mod_cast h0)
  rw [castInt_of_nonpos hq, Int.ceil_eq_iff]
  exact ⟨h1, h2⟩

theorem bucket_unit_neg_quarter : bucket (-1 / 4) 0 1 = 1 := by
  have h : castInt ((-1 / 4 - 0) / ((1 - 0) / 2) : ℚ) = 0 :=
    castInt_eq_zero (by norm_num) (by norm_num)
  simp only [bucket, h]; rfl

theorem bucket_unit_quarter : bucket (1 / 4) 0 1 = 1 := by
  have h : castInt ((1 / 4 - 0) / ((1 - 0) / 2) : ℚ) = 0 :=
    castInt_eq_zero (by norm_num) (by norm_num)
  simp only [bucket, h]; rfl

theorem bucket_unit_tenth : bucket (1 / 10) 0 1 = 1 := by
  have h : castInt ((1 / 10 - 0) / ((1 - 0) / 2) : ℚ) = 0 :=
    castInt_eq_zero (by norm_num) (by norm_num)
  simp only [bucket, h]; rfl

theorem bucket_unit_nine_tenths : bucket (9 / 10) 0 1 = 2 := by
  have h : castInt ((9 / 10 - 0) / ((1 - 0) / 2) : ℚ) = 1 :=
    castInt_eq_of_nonneg (by norm_num) (by norm_num) (by norm_num)
  simp only [bucket, h]; rfl

theorem bucket_unit_zero : bucket 0 0 1 = 1 := by
  have h : castInt ((0 - 0) / ((1 - 0) / 2) : ℚ) = 0 :=
    castInt_eq_zero (by norm_num) (by norm_num)
  simp only [bucket, h]; rfl

theorem bucket_unit_two : bucket 2 0 1 = 5 := by
  have h : castInt ((2 - 0) / ((1 - 0) / 2) : ℚ) = 4 :=
    castInt_eq_of_nonneg (by norm_num) (by norm_num) (by norm_num)
  simp only [bucket, h]; rfl

/-! ### `GetNeighborBlockIndex`: the error branch -/

/-- The guard of line 66, as a proposition on the three buckets. -/
theorem failed_eq_true_iff (c : SwarmDeviceContext) (n : Int) (x y z : ℚ) :
    (c.GetNeighborBlockIndex n x y z).failed = true ↔
      (bucket x c.x_min_ c.x_max_ < 0 ∨ bucket x c.x_min_ c.x_max_ > 3 ∨
        ((bucket y c.y_min_ c.y_max_ < 0 ∨ bucket y c.y_min_ c.y_max_ > 3) ∧ c.ndim_ > 1) ∨
        ((bucket z c.z_min_ c.z_max_ < 0 ∨ bucket z c.z_min_ c.z_max_ > 3) ∧ c.ndim_ > 2)) := by
  unfold GetNeighborBlockIndex
  dsimp only
  split_ifs with h
  · simp [h]
  · cases hv : c.neighborEntry (bucket x c.x_min_ c.x_max_) (bucket y c.y_min_ c.y_max_)
      (bucket z c.z_min_ c.z_max_) <;> simp [h]

theorem failed_eq_false_iff (c : SwarmDeviceContext) (n : Int) (x y z : ℚ) :
    (c.GetNeighborBlockIndex n x y z).failed = false ↔
      ¬ (bucket x c.x_min_ c.x_max_ < 0 ∨ bucket x c.x_min_ c.x_max_ > 3 ∨
        ((bucket y c.y_min_ c.y_max_ < 0 ∨ bucket y c.y_min_ c.y_max_ > 3) ∧ c.ndim_ > 1) ∨
        ((bucket z c.z_min_ c.z_max_ < 0 ∨ bucket z c.z_min_ c.z_max_ > 3) ∧ c.ndim_ > 2)) := by
  rw [← failed_eq_true_iff c n x y z, Bool.not_eq_true]

/-- On the error branch the call stores and returns `-2`. -/
theorem result_of_failed (c : SwarmDeviceContext) (n : Int) (x y z : ℚ)
    (hf : (c.GetNeighborBlockIndex n x y z).failed = true) :
    c.GetNeighborBlockIndex n x y z =
      { ctx := c.setBlockIndex n (-2), failed := true, value := some (-2) } := by
  have hg := (failed_eq_true_iff c n x y z).mp hf
  unfold GetNeighborBlockIndex
  dsimp only
  rw [if_pos hg]

/-- Off the error branch the call reads the table at the computed buckets,
stores the entry read and returns it. -/
theorem result_of_not_failed (c : SwarmDeviceContext) (n : Int) (x y z : ℚ)
    (hf : (c.GetNeighborBlockIndex n x y z).failed = false) :
    c.GetNeighborBlockIndex n x y z =
      match c.neighborEntry (bucket x c.x_min_ c.x_max_) (bucket y c.y_min_ c.y_max_)
          (bucket z c.z_min_ c.z_max_) with
      | some v => { ctx := c.setBlockIndex n v, failed := false, value := some v }
      | none => { ctx := c, failed := false, value := none } := by
  have hg := (failed_eq_false_iff c n x y z).mp hf
  unfold GetNeighborBlockIndex
  dsimp only
  rw [if_neg hg]
  cases hv : c.neighborEntry (bucket x c.x_min_ c.x_max_) (bucket y c.y_min_ c.y_max_)
      (bucket z c.z_min_ c.z_max_) <;> simp [setBlockIndex]

theorem value_of_not_failed (c : SwarmDeviceContext) (n : Int) (x y z : ℚ)
    (hf : (c.GetNeighborBlockIndex n x y z).failed = false) :
    (c.GetNeighborBlockIndex n x y z).value =
      c.neighborEntry (bucket x c.x_min_ c.x_max_) (bucket y c.y_min_ c.y_max_)
        (bucket z c.z_min_ c.z_max_) := by
  rw [result_of_not_failed c n x y z hf]
  cases hv : c.neighborEntry (bucket x c.x_min_ c.x_max_) (bucket y c.y_min_ c.y_max_)
      (bucket z c.z_min_ c.z_max_) <;> rfl

/-- Whatever value the call returns is the value it has stored in slot `n`. -/
theorem ctx_of_value (c : SwarmDeviceContext) (n : Int) (x y z : ℚ) (v : Int)
    (hv : (c.GetNeighborBlockIndex n x y z).value = some v) :
    (c.GetNeighborBlockIndex n x y z).ctx = c.setBlockIndex n v := by
  cases hf : (c.GetNeighborBlockIndex n x y z).failed
  · rw [result_of_not_failed c n x y z hf] at hv ⊢
    cases he : c.neighborEntry (bucket x c.x_min_ c.x_max_) (bucket y c.y_min_ c.y_max_)
        (bucket z c.z_min_ c.z_max_) with
    | none => rw [he] at hv; exact Option.noConfusion hv
    | some w =>
      rw [he] at hv
      have hw : w = v := Option.some.inj hv
      subst hw
      rfl
  · rw [result_of_failed c n x y z hf] at hv ⊢
    have hw : (-2 : Int) = v := Option.some.inj hv
    subst hw
    rfl

/-- When no value is returned nothing has been stored. -/
theorem ctx_of_value_none (c : SwarmDeviceContext) (n : Int) (x y z : ℚ)
    (hv : (c.GetNeighborBlockIndex n x y z).value = none) :
    (c.GetNeighborBlockIndex n x y z).ctx = c := by
  cases hf : (c.GetNeighborBlockIndex n x y z).failed
  · rw [result_of_not_failed c n x y z hf] at hv ⊢
    cases he : c.neighborEntry (bucket x c.x_min_ c.x_max_) (bucket y c.y_min_ c.y_max_)
        (bucket z c.z_min_ c.z_max_) with
    | none => rfl
    | some w => rw [he] at hv; exact Option.noConfusion hv
  · rw [result_of_failed c n x y z hf] at hv
    exact Option.noConfusion hv

theorem neighborEntry_one (c : SwarmDeviceContext) (i j k : Int) (hn : c.ndim_ = 1)
    (h0 : 0 ≤ i) (h3 : i ≤ 3) :
    c.neighborEntry i j k = some (c.neighborIndices_ 0 0 i) := by
  simp [neighborEntry, readNeighborIndices, hn, h0, h3]

theorem neighborEntry_two (c : SwarmDeviceContext) (i j k : Int) (hn : c.ndim_ = 2)
    (h0 : 0 ≤ i) (h3 : i ≤ 3) (hj0 : 0 ≤ j) (hj3 : j ≤ 3) :
    c.neighborEntry i j k = some (c.neighborIndices_ 0 j i) := by
  simp [neighborEntry, readNeighborIndices, hn, h0, h3, hj0, hj3]

theorem neighborEntry_three (c : SwarmDeviceContext) (i j k : Int) (hn : c.ndim_ = 3)
    (h0 : 0 ≤ i) (h3 : i ≤ 3) (hj0 : 0 ≤ j) (hj3 : j ≤ 3) (hk0 : 0 ≤ k) (hk3 : k ≤ 3) :
    c.neighborEntry i j k = some (c.neighborIndices_ k j i) := by
  simp [neighborEntry, readNeighborIndices, hn, h0, h3, hj0, hj3, hk0, hk3]

/-- On the unit block in one dimension a position whose x-bucket is `b` in
`[0, 3]` (with `y = z = 0`) does not fail and returns the entry `(0, 0, b)`. -/
theorem unit_one_dim_lookup (n : Int) (x : ℚ) (b : Int) (hb : bucket x 0 1 = b)
    (h0 : 0 ≤ b) (h3 : b ≤ 3) :
    ((unitBlock 1).GetNeighborBlockIndex n x 0 0).failed = false ∧
    ((unitBlock 1).GetNeighborBlockIndex n x 0 0).value =
      some ((unitBlock 1).neighborIndices_ 0 0 b) := by
  have hf : ((unitBlock 1).GetNeighborBlockIndex n x 0 0).failed = false := by
    rw [failed_eq_false_iff]
    show ¬ (bucket x 0 1 < 0 ∨ bucket x 0 1 > 3 ∨
      ((bucket 0 0 1 < 0 ∨ bucket 0 0 1 > 3) ∧ (1 : Int) > 1) ∨
      ((bucket 0 0 1 < 0 ∨ bucket 0 0 1 > 3) ∧ (1 : Int) > 2))
    rw [hb, bucket_unit_zero]
    omega
  refine ⟨hf, ?_⟩
  rw [value_of_not_failed _ _ _ _ _ hf]
  show (unitBlock 1).neighborEntry (bucket x 0 1) _ _ = _
  rw [hb]
  exact neighborEntry_one _ _ _ _ rfl h0 h3

theorem failed_unit_two (n : Int) :
    ((unitBlock 1).GetNeighborBlockIndex n 2 0 0).failed = true := by
  rw [failed_eq_true_iff]
  right; left
  show bucket 2 0 1 > 3
  rw [bucket_unit_two]; decide

theorem failed_unit_quarter (n : Int) :
    ((unitBlock 1).GetNeighborBlockIndex n (1 / 4) 0 0).failed = false :=
  (unit_one_dim_lookup n (1 / 4) 1 bucket_unit_quarter (by decide) (by decide)).1

/-- C1: `GetNeighborBlockIndex` signals the invalid-index failure exactly when
the x-bucket is outside `[0,3]`, or `ndim > 1` and the y-bucket is outside
`[0,3]`, or `ndim > 2` and the z-bucket is outside `[0,3]`; when it does, `-2`
is stored as the destination index of slot `n` and `-2` is the value returned;
when it does not, the table is read at the buckets as computed (no bucket is
clamped). -/
theorem GetNeighborBlockIndex_fails_iff_bucket_out_of_range
    (c : SwarmDeviceContext) (n : Int) (x y z : ℚ) :
    ((c.GetNeighborBlockIndex n x y z).failed = true ↔
      ((bucket x c.x_min_ c.x_max_ < 0 ∨ 3 < bucket x c.x_min_ c.x_max_) ∨
       (1 < c.ndim_ ∧ (bucket y c.y_min_ c.y_max_ < 0 ∨ 3 < bucket y c.y_min_ c.y_max_)) ∨
       (2 < c.ndim_ ∧ (bucket z c.z_min_ c.z_max_ < 0 ∨ 3 < bucket z c.z_min_ c.z_max_)))) ∧
    ((c.GetNeighborBlockIndex n x y z).failed = true →
      (c.GetNeighborBlockIndex n x y z).ctx.blockIndex_ n = -2 ∧
      (c.GetNeighborBlockIndex n x y z).value = some (-2)) ∧
    ((c.GetNeighborBlockIndex n x y z).failed = false →
      (c.GetNeighborBlockIndex n x y z).value =
        c.neighborEntry (bucket x c.x_min_ c.x_max_) (bucket y c.y_min_ c.y_max_)
          (bucket z c.z_min_ c.z_max_)) := by
  refine ⟨?_, ?_, ?_⟩
  · rw [failed_eq_true_iff]
    constructor
    · rintro (h | h | h | h)
      · exact Or.inl (Or.inl h)
      · exact Or.inl (Or.inr h)
      · exact Or.inr (Or.inl ⟨h.2, h.1⟩)
      · exact Or.inr (Or.inr ⟨h.2, h.1⟩)
    · rintro ((h | h) | h | h)
      · exact Or.inl h
      · exact Or.inr (Or.inl h)
      · exact Or.inr (Or.inr (Or.inl ⟨h.2, h.1⟩))
      · exact Or.inr (Or.inr (Or.inr ⟨h.2, h.1⟩))
  · intro hf
    have hg := (failed_eq_true_iff c n x y z).mp hf
    unfold GetNeighborBlockIndex
    dsimp only
    rw [if_pos hg]
    simp [setBlockIndex]
  · intro hf
    have hg : ¬ _ := fun h => by
      have := (failed_eq_true_iff c n x y z).mpr h
      rw [hf] at this
      exact Bool.noConfusion this
    unfold GetNeighborBlockIndex
    dsimp only
    rw [if_neg hg]
    cases hv : c.neighborEntry (bucket x c.x_min_ c.x_max_) (bucket y c.y_min_ c.y_max_)
      (bucket z c.z_min_ c.z_max_) <;> simp [setBlockIndex]

/-- Witness for C1: on the unit block in one dimension the position `x = 2`
takes the error branch (bucket 5) and `x = 1/4` does not. -/
theorem GetNeighborBlockIndex_fails_iff_bucket_out_of_range_witness :
    (((unitBlock 1).GetNeighborBlockIndex 0 2 0 0).ctx.blockIndex_ 0 = -2 ∧
      ((unitBlock 1).GetNeighborBlockIndex 0 2 0 0).value = some (-2)) ∧
    ((unitBlock 1).GetNeighborBlockIndex 0 (1 / 4) 0 0).value =
      (unitBlock 1).neighborEntry (bucket (1 / 4) (unitBlock 1).x_min_ (unitBlock 1).x_max_)
        (bucket 0 (unitBlock 1).y_min_ (unitBlock 1).y_max_)
        (bucket 0 (unitBlock 1).z_min_ (unitBlock 1).z_max_) :=
  ⟨(GetNeighborBlockIndex_fails_iff_bucket_out_of_range (unitBlock 1) 0 2 0 0).2.1
      (failed_unit_two 0),
   (GetNeighborBlockIndex_fails_iff_bucket_out_of_range (unitBlock 1) 0 (1 / 4) 0 0).2.2
      (failed_unit_quarter 0)⟩

/-! ### The buckets of one axis -/

/-- C2: what the bucket expression computes on a block `lo < hi` with
half-width `h = (hi - lo) / 2`.  Because the cast truncates toward zero, every
position strictly inside the lower halo `(lo - h, lo)` gets bucket `1`, the
bucket of the lower half `[lo, lo + h)`, and not bucket `0`; bucket `0` is
given to `(lo - 2 h, lo - h]`.  The upper half `[lo + h, hi)` gets `2` and the
upper halo `[hi, hi + h)` gets `3`. -/
theorem bucket_truncates_lower_halo (lo hi x : ℚ) (hlt : lo < hi) :
    (lo - (hi - lo) / 2 < x → x < lo + (hi - lo) / 2 → bucket x lo hi = 1) ∧
    (lo - 2 * ((hi - lo) / 2) < x → x ≤ lo - (hi - lo) / 2 → bucket x lo hi = 0) ∧
    (lo + (hi - lo) / 2 ≤ x → x < hi → bucket x lo hi = 2) ∧
    (hi ≤ x → x < hi + (hi - lo) / 2 → bucket x lo hi = 3) := by
  have hh : 0 < (hi - lo) / 2 := by linarith
  refine ⟨?_, ?_, ?_, ?_⟩
  · intro h1 h2
    have e : castInt ((x - lo) / ((hi - lo) / 2)) = 0 := by
      apply castInt_eq_zero
      · rw [lt_div_iff₀ hh]; linarith
      · rw [div_lt_iff₀ hh]; linarith
    simp only [bucket, e]; rfl
  · intro h1 h2
    have e : castInt ((x - lo) / ((hi - lo) / 2)) = -1 := by
      apply castInt_eq_of_nonpos (by decide)
      · rw [lt_div_iff₀ hh]; push_cast; linarith
      · rw [div_le_iff₀ hh]; push_cast; linarith
    simp only [bucket, e]; rfl
  · intro h1 h2
    have e : castInt ((x - lo) / ((hi - lo) / 2)) = 1 := by
      apply castInt_eq_of_nonneg (by decide)
      · rw [le_div_iff₀ hh]; push_cast; linarith
      · rw [div_lt_iff₀ hh]; push_cast; linarith
    simp only [bucket, e]; rfl
  · intro h1 h2
    have e : castInt ((x - lo) / ((hi - lo) / 2)) = 2 := by
      apply castInt_eq_of_nonneg (by decide)
      · rw [le_div_iff₀ hh]; push_cast; linarith
      · rw [div_lt_iff₀ hh]; push_cast; linarith
    simp only [bucket, e]; rfl

/-- Witness for C2: on the block `[0, 1]` the lower-halo position `x = -1/4`
gets bucket `1`, `x = -3/4` gets bucket `0`, `x = 3/4` gets bucket `2` and
`x = 5/4` gets bucket `3`. -/
theorem bucket_truncates_lower_halo_witness :
    bucket (-1 / 4) 0 1 = 1 ∧ bucket (-3 / 4) 0 1 = 0 ∧ bucket (3 / 4) 0 1 = 2 ∧
      bucket (5 / 4) 0 1 = 3 :=
  ⟨(bucket_truncates_lower_halo 0 1 (-1 / 4) (by norm_num)).1 (by norm_num) (by norm_num),
   (bucket_truncates_lower_halo 0 1 (-3 / 4) (by norm_num)).2.1 (by norm_num) (by norm_num),
   (bucket_truncates_lower_halo 0 1 (3 / 4) (by norm_num)).2.2.1 (by norm_num) (by norm_num),
   (bucket_truncates_lower_halo 0 1 (5 / 4) (by norm_num)).2.2.2 (by norm_num) (by norm_num)⟩

/-- C3, as stated, fails: on the block `[0, 1]` the position `x = 0.1` is not
in bucket `0` and `x = 0.9` is not in bucket `3`. -/
theorem bucket_unit_scenario_counterexample :
    ¬ (bucket (1 / 10) (unitBlock 1).x_min_ (unitBlock 1).x_max_ = 0 ∧
       bucket (9 / 10) (unitBlock 1).x_min_ (unitBlock 1).x_max_ = 3) := by
  show ¬ (bucket (1 / 10) 0 1 = 0 ∧ bucket (9 / 10) 0 1 = 3)
  rw [bucket_unit_tenth, bucket_unit_nine_tenths]
  decide

/-- C3, amended: on the one-dimensional block `[0, 1]` the x-bucket of
`x = 0.1` is `1` and the x-bucket of `x = 0.9` is `2`, and
`GetNeighborBlockIndex` fails for neither and returns the table entries at
`(0, 0, 1)` and `(0, 0, 2)`. -/
theorem bucket_unit_scenario :
    bucket (1 / 10) (unitBlock 1).x_min_ (unitBlock 1).x_max_ = 1 ∧
    bucket (9 / 10) (unitBlock 1).x_min_ (unitBlock 1).x_max_ = 2 ∧
    ((unitBlock 1).GetNeighborBlockIndex 0 (1 / 10) 0 0).failed = false ∧
    ((unitBlock 1).GetNeighborBlockIndex 0 (9 / 10) 0 0).failed = false ∧
    ((unitBlock 1).GetNeighborBlockIndex 0 (1 / 10) 0 0).value =
      some ((unitBlock 1).neighborIndices_ 0 0 1) ∧
    ((unitBlock 1).GetNeighborBlockIndex 0 (9 / 10) 0 0).value =
      some ((unitBlock 1).neighborIndices_ 0 0 2) := by
  have h1 := unit_one_dim_lookup 0 (1 / 10) 1 bucket_unit_tenth (by decide) (by decide)
  have h2 := unit_one_dim_lookup 0 (9 / 10) 2 bucket_unit_nine_tenths (by decide) (by decide)
  exact ⟨bucket_unit_tenth, bucket_unit_nine_tenths, h1.1, h2.1, h1.2, h2.2⟩

/-! ### `GetNeighborBlockIndex`: the lookup -/

theorem stored_of_value (c : SwarmDeviceContext) (n : Int) (x y z : ℚ) (v : Int)
    (hv : (c.GetNeighborBlockIndex n x y z).value = some v) :
    (c.GetNeighborBlockIndex n x y z).ctx.blockIndex_ n = v := by
  rw [ctx_of_value c n x y z v hv]
  simp [setBlockIndex]

/-- On a unit block of any dimensionality, buckets inside `[0, 3]` on all
three axes do not fail. -/
theorem unit_not_failed (d n : Int) (x y z : ℚ)
    (hx : 0 ≤ bucket x 0 1 ∧ bucket x 0 1 ≤ 3) (hy : 0 ≤ bucket y 0 1 ∧ bucket y 0 1 ≤ 3)
    (hz : 0 ≤ bucket z 0 1 ∧ bucket z 0 1 ≤ 3) :
    ((unitBlock d).GetNeighborBlockIndex n x y z).failed = false := by
  rw [failed_eq_false_iff]
  show ¬ (bucket x 0 1 < 0 ∨ bucket x 0 1 > 3 ∨
    ((bucket y 0 1 < 0 ∨ bucket y 0 1 > 3) ∧ d > 1) ∨
    ((bucket z 0 1 < 0 ∨ bucket z 0 1 > 3) ∧ d > 2))
  omega

theorem unit_not_failed_sample (d n : Int) :
    ((unitBlock d).GetNeighborBlockIndex n (1 / 4) (9 / 10) (1 / 10)).failed = false := by
  apply unit_not_failed
  · rw [bucket_unit_quarter]; decide
  · rw [bucket_unit_nine_tenths]; decide
  · rw [bucket_unit_tenth]; decide

/-- C4: when `GetNeighborBlockIndex` does not signal the failure, a value it
returns is the value it has stored as the destination index of slot `n`; for
`ndim = 1` that value is the table entry at `(0, 0, i)` and the whole result
is the same for every `y` and `z`, for `ndim = 2` it is the entry at
`(0, j, i)` and the result is the same for every `z`, and for `ndim = 3` it is
the entry at `(k, j, i)`, where `i`, `j`, `k` are the buckets of `x`, `y`,
`z`. -/
theorem GetNeighborBlockIndex_returns_stored_table_entry
    (c : SwarmDeviceContext) (n : Int) (x y z : ℚ)
    (hf : (c.GetNeighborBlockIndex n x y z).failed = false) :
    (∀ v, (c.GetNeighborBlockIndex n x y z).value = some v →
      (c.GetNeighborBlockIndex n x y z).ctx.blockIndex_ n = v) ∧
    (c.ndim_ = 1 →
      (c.GetNeighborBlockIndex n x y z).value =
        some (c.neighborIndices_ 0 0 (bucket x c.x_min_ c.x_max_)) ∧
      (c.GetNeighborBlockIndex n x y z).ctx.blockIndex_ n =
        c.neighborIndices_ 0 0 (bucket x c.x_min_ c.x_max_) ∧
      ∀ y1 z1 : ℚ, c.GetNeighborBlockIndex n x y1 z1 = c.GetNeighborBlockIndex n x y z) ∧
    (c.ndim_ = 2 →
      (c.GetNeighborBlockIndex n x y z).value =
        some (c.neighborIndices_ 0 (bucket y c.y_min_ c.y_max_) (bucket x c.x_min_ c.x_max_)) ∧
      (c.GetNeighborBlockIndex n x y z).ctx.blockIndex_ n =
        c.neighborIndices_ 0 (bucket y c.y_min_ c.y_max_) (bucket x c.x_min_ c.x_max_) ∧
      ∀ z1 : ℚ, c.GetNeighborBlockIndex n x y z1 = c.GetNeighborBlockIndex n x y z) ∧
    (c.ndim_ = 3 →
      (c.GetNeighborBlockIndex n x y z).value =
        some (c.neighborIndices_ (bucket z c.z_min_ c.z_max_) (bucket y c.y_min_ c.y_max_)
          (bucket x c.x_min_ c.x_max_)) ∧
      (c.GetNeighborBlockIndex n x y z).ctx.blockIndex_ n =
        c.neighborIndices_ (bucket z c.z_min_ c.z_max_) (bucket y c.y_min_ c.y_max_)
          (bucket x c.x_min_ c.x_max_)) := by
  have hg := (failed_eq_false_iff c n x y z).mp hf
  have hval := value_of_not_failed c n x y z hf
  refine ⟨fun v hv => stored_of_value c n x y z v hv, ?_, ?_, ?_⟩
  · intro hn
    have hv : (c.GetNeighborBlockIndex n x y z).value =
        some (c.neighborIndices_ 0 0 (bucket x c.x_min_ c.x_max_)) := by
      rw [hval]
      exact neighborEntry_one c _ _ _ hn (by omega) (by omega)
    refine ⟨hv, stored_of_value c n x y z _ hv, ?_⟩
    intro y1 z1
    simp [GetNeighborBlockIndex, neighborEntry, hn]
  · intro hn
    have hv : (c.GetNeighborBlockIndex n x y z).value =
        some (c.neighborIndices_ 0 (bucket y c.y_min_ c.y_max_)
          (bucket x c.x_min_ c.x_max_)) := by
      rw [hval]
      exact neighborEntry_two c _ _ _ hn (by omega) (by omega) (by omega) (by omega)
    refine ⟨hv, stored_of_value c n x y z _ hv, ?_⟩
    intro z1
    simp [GetNeighborBlockIndex, neighborEntry, hn]
  · intro hn
    have hv : (c.GetNeighborBlockIndex n x y z).value =
        some (c.neighborIndices_ (bucket z c.z_min_ c.z_max_) (bucket y c.y_min_ c.y_max_)
          (bucket x c.x_min_ c.x_max_)) := by
      rw [hval]
      exact neighborEntry_three c _ _ _ hn (by omega) (by omega) (by omega) (by omega)
        (by omega) (by omega)
    exact ⟨hv, stored_of_value c n x y z _ hv⟩

/-- Witness for C4: the position `(1/4, 9/10, 1/10)` on the unit block, in
one, two and three dimensions. -/
theorem GetNeighborBlockIndex_returns_stored_table_entry_witness :
    (((unitBlock 1).GetNeighborBlockIndex 7 (1 / 4) (9 / 10) (1 / 10)).value =
        some ((unitBlock 1).neighborIndices_ 0 0
          (bucket (1 / 4) (unitBlock 1).x_min_ (unitBlock 1).x_max_))) ∧
    (((unitBlock 2).GetNeighborBlockIndex 7 (1 / 4) (9 / 10) (1 / 10)).value =
        some ((unitBlock 2).neighborIndices_ 0
          (bucket (9 / 10) (unitBlock 2).y_min_ (unitBlock 2).y_max_)
          (bucket (1 / 4) (unitBlock 2).x_min_ (unitBlock 2).x_max_))) ∧
    (((unitBlock 3).GetNeighborBlockIndex 7 (1 / 4) (9 / 10) (1 / 10)).value =
        some ((unitBlock 3).neighborIndices_
          (bucket (1 / 10) (unitBlock 3).z_min_ (unitBlock 3).z_max_)
          (bucket (9 / 10) (unitBlock 3).y_min_ (unitBlock 3).y_max_)
          (bucket (1 / 4) (unitBlock 3).x_min_ (unitBlock 3).x_max_))) ∧
    (((unitBlock 1).GetNeighborBlockIndex 7 (1 / 4) (9 / 10) (1 / 10)).ctx.blockIndex_ 7 =
        (unitBlock 1).neighborIndices_ 0 0
          (bucket (1 / 4) (unitBlock 1).x_min_ (unitBlock 1).x_max_)) :=
  ⟨((GetNeighborBlockIndex_returns_stored_table_entry (unitBlock 1) 7 (1 / 4) (9 / 10) (1 / 10)
      (unit_not_failed_sample 1 7)).2.1 rfl).1,
   ((GetNeighborBlockIndex_returns_stored_table_entry (unitBlock 2) 7 (1 / 4) (9 / 10) (1 / 10)
      (unit_not_failed_sample 2 7)).2.2.1 rfl).1,
   ((GetNeighborBlockIndex_returns_stored_table_entry (unitBlock 3) 7 (1 / 4) (9 / 10) (1 / 10)
      (unit_not_failed_sample 3 7)).2.2.2 rfl).1,
   (GetNeighborBlockIndex_returns_stored_table_entry (unitBlock 1) 7 (1 / 4) (9 / 10) (1 / 10)
      (unit_not_failed_sample 1 7)).1 _
     ((GetNeighborBlockIndex_returns_stored_table_entry (unitBlock 1) 7 (1 / 4) (9 / 10)
       (1 / 10) (unit_not_failed_sample 1 7)).2.1 rfl).1⟩

/-! ### Determinism and frame -/

theorem geometry_setBlockIndex (c : SwarmDeviceContext) (n v : Int) :
    (c.setBlockIndex n v).geometry = c.geometry := rfl

theorem geometry_MarkParticleForRemoval (c : SwarmDeviceContext) (n : Int) :
    (c.MarkParticleForRemoval n).geometry = c.geometry := rfl

theorem geometry_withArrays (c : SwarmDeviceContext) (marked mask : Int → Bool)
    (blockIndex sendIndex : Int → Int) :
    (c.withArrays marked mask blockIndex sendIndex).geometry = c.geometry := rfl

theorem geometry_GetNeighborBlockIndex (c : SwarmDeviceContext) (n : Int) (x y z : ℚ) :
    (c.GetNeighborBlockIndex n x y z).ctx.geometry = c.geometry := by
  cases hv : (c.GetNeighborBlockIndex n x y z).value with
  | none => rw [ctx_of_value_none c n x y z hv]
  | some v => rw [ctx_of_value c n x y z v hv, geometry_setBlockIndex]

theorem geometry_run (c : SwarmDeviceContext) (call : Call) :
    (Call.run c call).geometry = c.geometry := by
  cases call with
  | mark n => exact geometry_MarkParticleForRemoval c n
  | neighbor n x y z => exact geometry_GetNeighborBlockIndex c n x y z

theorem geometry_runCalls (calls : List Call) (c : SwarmDeviceContext) :
    (c.runCalls calls).geometry = c.geometry := by
  induction calls generalizing c with
  | nil => rfl
  | cons call rest ih =>
    show (runCalls (Call.run c call) rest).geometry = c.geometry
    rw [ih, geometry_run]

/-- The failure flag and the returned value are functions of the geometry and
the position. -/
theorem outcome_of_geometry (c d : SwarmDeviceContext) (n m : Int) (x y z : ℚ)
    (h : d.geometry = c.geometry) :
    (d.GetNeighborBlockIndex m x y z).failed = (c.GetNeighborBlockIndex n x y z).failed ∧
    (d.GetNeighborBlockIndex m x y z).value = (c.GetNeighborBlockIndex n x y z).value := by
  simp only [geometry, Prod.mk.injEq] at h
  obtain ⟨⟨h1, h2⟩, ⟨h3, h4⟩, ⟨h5, h6⟩, h7, h8⟩ := h
  have hentry : ∀ i j k, d.neighborEntry i j k = c.neighborEntry i j k := by
    intro i j k
    simp [neighborEntry, readNeighborIndices, h7, h8]
  have hfail : (d.GetNeighborBlockIndex m x y z).failed =
      (c.GetNeighborBlockIndex n x y z).failed := by
    rw [Bool.eq_iff_iff, failed_eq_true_iff, failed_eq_true_iff, h1, h2, h3, h4, h5, h6, h7]
  refine ⟨hfail, ?_⟩
  cases hf : (c.GetNeighborBlockIndex n x y z).failed
  · rw [value_of_not_failed c n x y z hf, value_of_not_failed d m x y z (hfail.trans hf),
      hentry, h1, h2, h3, h4, h5, h6]
  · rw [result_of_failed c n x y z hf, result_of_failed d m x y z (hfail.trans hf)]

/-- C7: for a fixed block geometry, dimensionality and neighbour table, the
outcome of `GetNeighborBlockIndex` at a position is the same whatever the slot
index, whatever the contents of the mask, removal, destination and send arrays
and whatever calls were made before: the failure flag and the returned value
agree, and each call stores the returned value in its own slot. -/
theorem GetNeighborBlockIndex_outcome_depends_on_position_only
    (c : SwarmDeviceContext) (marked mask : Int → Bool) (blockIndex sendIndex : Int → Int)
    (calls : List Call) (n m : Int) (x y z : ℚ) :
    (((c.withArrays marked mask blockIndex sendIndex).runCalls calls).GetNeighborBlockIndex
        m x y z).failed = (c.GetNeighborBlockIndex n x y z).failed ∧
    (((c.withArrays marked mask blockIndex sendIndex).runCalls calls).GetNeighborBlockIndex
        m x y z).value = (c.GetNeighborBlockIndex n x y z).value ∧
    (∀ v, (c.GetNeighborBlockIndex n x y z).value = some v →
      (c.GetNeighborBlockIndex n x y z).ctx.blockIndex_ n = v ∧
      (((c.withArrays marked mask blockIndex sendIndex).runCalls calls).GetNeighborBlockIndex
        m x y z).ctx.blockIndex_ m = v) := by
  have hg : ((c.withArrays marked mask blockIndex sendIndex).runCalls calls).geometry =
      c.geometry := by
    rw [geometry_runCalls, geometry_withArrays]
  have h := outcome_of_geometry c _ n m x y z hg
  refine ⟨h.1, h.2, ?_⟩
  intro v hv
  exact ⟨stored_of_value c n x y z v hv, stored_of_value _ m x y z v (h.2.trans hv)⟩

/-- Witness for C7: slot 0 of the fresh unit block against slot 5 of the same
block after every array was overwritten, slot 3 was marked and a lookup for
slot 5 took the error branch. -/
theorem GetNeighborBlockIndex_outcome_depends_on_position_only_witness :
    ((unitBlock 1).GetNeighborBlockIndex 0 (1 / 4) 0 0).ctx.blockIndex_ 0 =
        (unitBlock 1).neighborIndices_ 0 0 1 ∧
    ((((unitBlock 1).withArrays (fun _ => true) (fun _ => true) (fun _ => 9)
        (fun _ => 4)).runCalls [Call.mark 3, Call.neighbor 5 2 0 0]).GetNeighborBlockIndex
        5 (1 / 4) 0 0).ctx.blockIndex_ 5 = (unitBlock 1).neighborIndices_ 0 0 1 :=
  (GetNeighborBlockIndex_outcome_depends_on_position_only (unitBlock 1) (fun _ => true)
    (fun _ => true) (fun _ => 9) (fun _ => 4) [Call.mark 3, Call.neighbor 5 2 0 0] 0 5
    (1 / 4) 0 0).2.2 _
    (unit_one_dim_lookup 0 (1 / 4) 1 bucket_unit_quarter (by decide) (by decide)).2

/-- C8: the device-context mutations are slot-local.  `MarkParticleForRemoval
n` leaves every field but the removal flags as it was (so `IsActive`,
`IsOnCurrentMeshBlock` and the destination index of every slot are unchanged)
and leaves the removal flag of every slot `m ≠ n` as it was;
`GetNeighborBlockIndex n` leaves every field but the destination indices as it
was (mask, removal flags, neighbour table, bounds) and leaves the destination
index of every slot `m ≠ n` as it was, whether or not it fails. -/
theorem device_context_writes_are_slot_local (c : SwarmDeviceContext) (n : Int) (x y z : ℚ) :
    ({ c.MarkParticleForRemoval n with marked_for_removal_ := c.marked_for_removal_ } = c ∧
     (∀ m, (c.MarkParticleForRemoval n).IsActive m = c.IsActive m) ∧
     (∀ m, (c.MarkParticleForRemoval n).blockIndex_ m = c.blockIndex_ m) ∧
     (∀ m, (c.MarkParticleForRemoval n).IsOnCurrentMeshBlock m = c.IsOnCurrentMeshBlock m) ∧
     (∀ m, m ≠ n →
       (c.MarkParticleForRemoval n).IsMarkedForRemoval m = c.IsMarkedForRemoval m)) ∧
    ({ (c.GetNeighborBlockIndex n x y z).ctx with blockIndex_ := c.blockIndex_ } = c ∧
     (∀ m, (c.GetNeighborBlockIndex n x y z).ctx.IsActive m = c.IsActive m) ∧
     (∀ m, (c.GetNeighborBlockIndex n x y z).ctx.IsMarkedForRemoval m =
       c.IsMarkedForRemoval m) ∧
     (c.GetNeighborBlockIndex n x y z).ctx.neighborIndices_ = c.neighborIndices_ ∧
     (∀ m, m ≠ n → (c.GetNeighborBlockIndex n x y z).ctx.blockIndex_ m = c.blockIndex_ m)) := by
  constructor
  · refine ⟨rfl, fun _ => rfl, fun _ => rfl, fun _ => rfl, ?_⟩
    intro m hm
    simp [MarkParticleForRemoval, IsMarkedForRemoval, Function.update_noteq hm]
  · cases hv : (c.GetNeighborBlockIndex n x y z).value with
    | none =>
      rw [ctx_of_value_none c n x y z hv]
      exact ⟨rfl, fun _ => rfl, fun _ => rfl, rfl, fun _ _ => rfl⟩
    | some v =>
      rw [ctx_of_value c n x y z v hv]
      refine ⟨rfl, fun _ => rfl, fun _ => rfl, rfl, ?_⟩
      intro m hm
      simp [setBlockIndex, Function.update_noteq hm]

/-- Witness for C8: on the unit block, marking slot 2 leaves the flag of slot
5 alone, and a failing lookup for slot 2 leaves the destination index of slot
5 alone. -/
theorem device_context_writes_are_slot_local_witness :
    ((unitBlock 1).MarkParticleForRemoval 2).IsMarkedForRemoval 5 =
        (unitBlock 1).IsMarkedForRemoval 5 ∧
    ((unitBlock 1).GetNeighborBlockIndex 2 2 0 0).ctx.blockIndex_ 5 =
        (unitBlock 1).blockIndex_ 5 :=
  ⟨(device_context_writes_are_slot_local (unitBlock 1) 2 2 0 0).1.2.2.2.2 5 (by decide),
   (device_context_writes_are_slot_local (unitBlock 1) 2 2 0 0).2.2.2.2.2 5 (by decide)⟩

/-- C9: marking is idempotent.  After `MarkParticleForRemoval n` the predicate
`IsMarkedForRemoval n` is true, and a second `MarkParticleForRemoval n` leaves
the context as the first one left it. -/
theorem MarkParticleForRemoval_idempotent (c : SwarmDeviceContext) (n : Int) :
    (c.MarkParticleForRemoval n).IsMarkedForRemoval n = true ∧
    (c.MarkParticleForRemoval n).MarkParticleForRemoval n = c.MarkParticleForRemoval n := by
  constructor
  · simp [MarkParticleForRemoval, IsMarkedForRemoval]
  · simp [MarkParticleForRemoval]

/-! ### Packing efficiency -/

/-- C5: `get_packing_efficiency` divides two `int`s, so a pool with gaps
(`0 < num_active < max_active_index + 1`) gets `0`, not the ratio
`num_active / (max_active_index + 1)`, and the result is not in `(0, 1]`. -/
theorem get_packing_efficiency_truncates {MeshBlock BoundarySwarm : Type}
    (s : Swarm MeshBlock BoundarySwarm) (h0 : 0 < s.num_active_)
    (h1 : s.num_active_ < s.max_active_index_ + 1) :
    s.get_packing_efficiency = some 0 ∧
    s.get_packing_efficiency ≠
      some ((s.num_active_ : ℚ) / ((s.max_active_index_ : ℚ) + 1)) := by
  have hd : s.max_active_index_ + 1 ≠ 0 := by omega
  have hq : Int.tdiv s.num_active_ (s.max_active_index_ + 1) = 0 :=
    Int.tdiv_eq_zero_of_lt (le_of_lt h0) h1
  have hv : s.get_packing_efficiency = some 0 := by
    simp [Swarm.get_packing_efficiency, hd, hq]
  refine ⟨hv, ?_⟩
  rw [hv]
  intro h
  have h2 : (0 : ℚ) = (s.num_active_ : ℚ) / ((s.max_active_index_ : ℚ) + 1) :=
    Option.some.inj h
  have hn : (0 : ℚ) < (s.num_active_ : ℚ) := by exact_mod_cast h0
  have hm : (0 : ℚ) < (s.max_active_index_ : ℚ) + 1 := by
    have : (0 : Int) < s.max_active_index_ + 1 := by omega
    exact_mod_cast this
  have := div_pos hn hm
  linarith

/-- Witness for C5: `num_active = 2`, `max_active_index = 2` yields `0`, not
`2/3`. -/
theorem get_packing_efficiency_truncates_witness :
    (Swarm.poolState 4 2 2).get_packing_efficiency = some 0 ∧
    (Swarm.poolState 4 2 2).get_packing_efficiency ≠
      some (((Swarm.poolState 4 2 2).num_active_ : ℚ) /
        (((Swarm.poolState 4 2 2).max_active_index_ : ℚ) + 1)) :=
  get_packing_efficiency_truncates (Swarm.poolState 4 2 2) (by decide) (by decide)

/-- C6: for a pool with `0 ≤ num_active ≤ max_active_index + 1` and
`0 ≤ max_active_index`, `get_packing_efficiency` returns `1` exactly when the
pool is fully packed (`num_active = max_active_index + 1`), and a value below
`1` when there are gaps. -/
theorem get_packing_efficiency_eq_one_iff_packed {MeshBlock BoundarySwarm : Type}
    (s : Swarm MeshBlock BoundarySwarm) (h0 : 0 ≤ s.num_active_)
    (h1 : s.num_active_ ≤ s.max_active_index_ + 1) (h2 : 0 ≤ s.max_active_index_) :
    (s.get_packing_efficiency = some 1 ↔ s.num_active_ = s.max_active_index_ + 1) ∧
    (s.num_active_ < s.max_active_index_ + 1 →
      ∃ v, s.get_packing_efficiency = some v ∧ v < 1) := by
  have hd : s.max_active_index_ + 1 ≠ 0 := by omega
  have hgap : s.num_active_ < s.max_active_index_ + 1 →
      s.get_packing_efficiency = some 0 := by
    intro hlt
    have hq : Int.tdiv s.num_active_ (s.max_active_index_ + 1) = 0 :=
      Int.tdiv_eq_zero_of_lt h0 hlt
    simp [Swarm.get_packing_efficiency, hd, hq]
  constructor
  · constructor
    · intro h
      by_contra hne
      have hlt : s.num_active_ < s.max_active_index_ + 1 := lt_of_le_of_ne h1 hne
      rw [hgap hlt] at h
      have : (0 : ℚ) = 1 := Option.some.inj h
      norm_num at this
    · intro h
      have hq : Int.tdiv s.num_active_ (s.max_active_index_ + 1) = 1 := by
        rw [h]
        exact Int.tdiv_self hd
      simp [Swarm.get_packing_efficiency, hd, hq]
  · intro hlt
    exact ⟨0, hgap hlt, by norm_num⟩

/-- Witness for C6: the packed pool `num_active = 3`, `max_active_index = 2`
and the pool with a gap `num_active = 2`, `max_active_index = 2`. -/
theorem get_packing_efficiency_eq_one_iff_packed_witness :
    (Swarm.poolState 4 2 3).get_packing_efficiency = some 1 ∧
    ∃ v, (Swarm.poolState 4 2 2).get_packing_efficiency = some v ∧ v < 1 :=
  ⟨(get_packing_efficiency_eq_one_iff_packed (Swarm.poolState 4 2 3) (by decide) (by decide)
      (by decide)).1.mpr rfl,
   (get_packing_efficiency_eq_one_iff_packed (Swarm.poolState 4 2 2) (by decide) (by decide)
      (by decide)).2 (by decide)⟩

/-! ### The communication round -/

theorem StartCommunication_snd {MeshBlock BoundarySwarm Phase : Type}
    (StartReceiving : BoundarySwarm → Phase → BoundarySwarm) (others : List Int)
    (s : Swarm MeshBlock BoundarySwarm) (phase : Phase) :
    (Swarm.StartCommunication StartReceiving others s phase).2 = true := rfl

theorem StartCommunication_round_state {MeshBlock BoundarySwarm Phase : Type}
    (StartReceiving : BoundarySwarm → Phase → BoundarySwarm) (others : List Int)
    (s : Swarm MeshBlock BoundarySwarm) (phase : Phase) :
    (Swarm.StartCommunication StartReceiving others s phase).1.local_num_completed_ = 0 ∧
    (Swarm.StartCommunication StartReceiving others s phase).1.mpiStatus = false ∧
    (Swarm.StartCommunication StartReceiving others s phase).1.global_num_incomplete_ =
      3 + others.sum :=
  ⟨rfl, rfl, rfl⟩

/-- While `mpiStatus` is false every poll returns false, leaves `mpiStatus`
false and adds one to the local completed count. -/
theorem pollTimes_of_not_mpiStatus {MeshBlock BoundarySwarm : Type} (k : Nat)
    (s : Swarm MeshBlock BoundarySwarm) (h : s.mpiStatus = false) :
    (Swarm.pollTimes k s).mpiStatus = false ∧
    (Swarm.pollTimes k s).local_num_completed_ = s.local_num_completed_ + k := by
  induction k generalizing s with
  | zero => exact ⟨h, by simp [Swarm.pollTimes]⟩
  | succ k ih =>
    have hs : (Swarm.SillyUpdate s).1 =
        { s with local_num_completed_ := s.local_num_completed_ + 1 } := by
      simp [Swarm.SillyUpdate, h]
    have h1 := ih (Swarm.SillyUpdate s).1 (by rw [hs]; exact h)
    refine ⟨h1.1, ?_⟩
    show (Swarm.pollTimes k (Swarm.SillyUpdate s).1).local_num_completed_ = _
    rw [h1.2, hs]
    push_cast
    omega

/-- C10, as stated, fails: a single-rank swarm starts a phase, polls twice
(the local completed count is then 2) and starts a phase again without
finishing; the second `StartCommunication` returns `true` and the completed
count is back at 0. -/
theorem StartCommunication_reentry_counterexample :
    ¬ ((Swarm.StartCommunication (fun (b : Unit) (_ : Unit) => b) []
          (Swarm.pollTimes 2
            (Swarm.StartCommunication (fun (b : Unit) (_ : Unit) => b) []
              (Swarm.poolState 4 2 2) ()).1) ()).2 = false ∨
       (Swarm.StartCommunication (fun (b : Unit) (_ : Unit) => b) []
          (Swarm.pollTimes 2
            (Swarm.StartCommunication (fun (b : Unit) (_ : Unit) => b) []
              (Swarm.poolState 4 2 2) ()).1) ()).1.local_num_completed_ =
        (Swarm.pollTimes 2
            (Swarm.StartCommunication (fun (b : Unit) (_ : Unit) => b) []
              (Swarm.poolState 4 2 2) ()).1).local_num_completed_) := by
  decide

/-- C10, amended: `StartCommunication` keeps no record of an open phase.  A
call made while a phase is open (after a `StartCommunication` and any number
of `SillyUpdate` polls, `k` say, which bring the local completed count to `k`)
returns `true` and resets the round state as a first call does: the local
completed count is 0, `mpiStatus` is false and the global incomplete count is
the reduced seed. -/
theorem StartCommunication_reentry_resets {MeshBlock BoundarySwarm Phase : Type}
    (StartReceiving : BoundarySwarm → Phase → BoundarySwarm) (others1 others2 : List Int)
    (s : Swarm MeshBlock BoundarySwarm) (phase1 phase2 : Phase) (k : Nat) :
    (Swarm.StartCommunication StartReceiving others2
        (Swarm.pollTimes k (Swarm.StartCommunication StartReceiving others1 s phase1).1)
        phase2).2 = true ∧
    (Swarm.pollTimes k
        (Swarm.StartCommunication StartReceiving others1 s phase1).1).local_num_completed_ =
      k ∧
    (Swarm.StartCommunication StartReceiving others2
        (Swarm.pollTimes k (Swarm.StartCommunication StartReceiving others1 s phase1).1)
        phase2).1.local_num_completed_ = 0 ∧
    (Swarm.StartCommunication StartReceiving others2
        (Swarm.pollTimes k (Swarm.StartCommunication StartReceiving others1 s phase1).1)
        phase2).1.mpiStatus = false ∧
    (Swarm.StartCommunication StartReceiving others2
        (Swarm.pollTimes k (Swarm.StartCommunication StartReceiving others1 s phase1).1)
        phase2).1.global_num_incomplete_ = 3 + others2.sum := by
  have hk := (pollTimes_of_not_mpiStatus k
    (Swarm.StartCommunication StartReceiving others1 s phase1).1 rfl).2
  have h0 : (Swarm.StartCommunication StartReceiving others1 s phase1).1.local_num_completed_
      = 0 := rfl
  rw [h0, zero_add] at hk
  exact ⟨rfl, hk, rfl, rfl, rfl⟩

/-- C11: `StartCommunication` resets the round state from any prior state.
Afterwards `local_num_completed_` is 0, `mpiStatus` is false and
`global_num_incomplete_` is the seed 3 plus the values contributed by the other
ranks: 3 itself in a single-rank run or a build without MPI, and `3 (r + 1)`
when each of `r` other ranks contributes its seed 3; the call returns true. -/
theorem StartCommunication_resets_round_state {MeshBlock BoundarySwarm Phase : Type}
    (StartReceiving : BoundarySwarm → Phase → BoundarySwarm) (others : List Int) (r : Nat)
    (s : Swarm MeshBlock BoundarySwarm) (phase : Phase) :
    (Swarm.StartCommunication StartReceiving others s phase).1.local_num_completed_ = 0 ∧
    (Swarm.StartCommunication StartReceiving others s phase).1.mpiStatus = false ∧
    (Swarm.StartCommunication StartReceiving others s phase).1.global_num_incomplete_ =
      3 + others.sum ∧
    (Swarm.StartCommunication StartReceiving [] s phase).1.global_num_incomplete_ = 3 ∧
    (Swarm.StartCommunication StartReceiving (List.replicate r 3) s
      phase).1.global_num_incomplete_ = 3 * ((r : Int) + 1) ∧
    (Swarm.StartCommunication StartReceiving others s phase).2 = true := by
  refine ⟨rfl, rfl, rfl, rfl, ?_, rfl⟩
  rw [(StartCommunication_round_state StartReceiving (List.replicate r 3) s phase).2.2]
  simp [List.sum_replicate]
  ring

/-! ### Polling -/

theorem SillyUpdate_of_mpiStatus {MeshBlock BoundarySwarm : Type}
    (s : Swarm MeshBlock BoundarySwarm) (h : s.mpiStatus = true) :
    Swarm.SillyUpdate s = (s, true) := by
  simp [Swarm.SillyUpdate, h]

theorem SillyUpdate_of_not_mpiStatus {MeshBlock BoundarySwarm : Type}
    (s : Swarm MeshBlock BoundarySwarm) (h : s.mpiStatus = false) :
    Swarm.SillyUpdate s =
      ({ s with local_num_completed_ := s.local_num_completed_ + 1 }, false) := by
  simp [Swarm.SillyUpdate, h]

/-- C12, as stated, fails: on a swarm whose `mpiStatus` is true and whose
local completed count is 5, `SillyUpdate` leaves the count at 5. -/
theorem SillyUpdate_increment_counterexample :
    ¬ ((Swarm.SillyUpdate (Swarm.completedState 5)).1.local_num_completed_ =
        (Swarm.completedState 5).local_num_completed_ + 1) := by
  rw [SillyUpdate_of_mpiStatus (Swarm.completedState 5) rfl]
  decide

/-- C12, amended: a call of `SillyUpdate` made while `mpiStatus` is false
returns false and leaves `local_num_completed_` exactly one more than before;
a call made while `mpiStatus` is true returns true and changes nothing. -/
theorem SillyUpdate_increments_unless_mpiStatus {MeshBlock BoundarySwarm : Type}
    (s : Swarm MeshBlock BoundarySwarm) :
    (s.mpiStatus = false →
      (Swarm.SillyUpdate s).1.local_num_completed_ = s.local_num_completed_ + 1 ∧
      (Swarm.SillyUpdate s).2 = false) ∧
    (s.mpiStatus = true → Swarm.SillyUpdate s = (s, true)) := by
  constructor
  · intro h
    rw [SillyUpdate_of_not_mpiStatus s h]
    exact ⟨rfl, rfl⟩
  · intro h
    exact SillyUpdate_of_mpiStatus s h

/-- Witness for C12 (amended): a pool state with `mpiStatus` false and the
state with `mpiStatus` true and completed count 5. -/
theorem SillyUpdate_increments_unless_mpiStatus_witness :
    ((Swarm.SillyUpdate (Swarm.poolState 4 2 2)).1.local_num_completed_ =
        (Swarm.poolState 4 2 2).local_num_completed_ + 1 ∧
      (Swarm.SillyUpdate (Swarm.poolState 4 2 2)).2 = false) ∧
    Swarm.SillyUpdate (Swarm.completedState 5) = (Swarm.completedState 5, true) :=
  ⟨(SillyUpdate_increments_unless_mpiStatus (Swarm.poolState 4 2 2)).1 rfl,
   (SillyUpdate_increments_unless_mpiStatus (Swarm.completedState 5)).2 rfl⟩

/-- C19: `SillyUpdate` returns true exactly when `mpiStatus` was true on entry
and never modifies `mpiStatus`; hence directly after `StartCommunication` every
poll returns false, whatever the number `j` of polls made before it, and `k`
consecutive polls leave `local_num_completed_` at `k` and `mpiStatus` false. -/
theorem SillyUpdate_true_iff_mpiStatus {MeshBlock BoundarySwarm Phase : Type}
    (StartReceiving : BoundarySwarm → Phase → BoundarySwarm) (others : List Int)
    (s : Swarm MeshBlock BoundarySwarm) (phase : Phase) (j k : Nat) :
    ((Swarm.SillyUpdate s).2 = true ↔ s.mpiStatus = true) ∧
    (Swarm.SillyUpdate s).1.mpiStatus = s.mpiStatus ∧
    (Swarm.SillyUpdate
      (Swarm.pollTimes j (Swarm.StartCommunication StartReceiving others s phase).1)).2 =
        false ∧
    (Swarm.pollTimes k
      (Swarm.StartCommunication StartReceiving others s phase).1).local_num_completed_ = k ∧
    (Swarm.pollTimes k
      (Swarm.StartCommunication StartReceiving others s phase).1).mpiStatus = false := by
  have hs : ((Swarm.SillyUpdate s).2 = true ↔ s.mpiStatus = true) ∧
      (Swarm.SillyUpdate s).1.mpiStatus = s.mpiStatus := by
    cases h : s.mpiStatus
    · rw [SillyUpdate_of_not_mpiStatus s h]
      simp [h]
    · rw [SillyUpdate_of_mpiStatus s h]
      simp [h]
  have hj := pollTimes_of_not_mpiStatus j
    (Swarm.StartCommunication StartReceiving others s phase).1 rfl
  have hk := pollTimes_of_not_mpiStatus k
    (Swarm.StartCommunication StartReceiving others s phase).1 rfl
  have h0 : (Swarm.StartCommunication StartReceiving others s phase).1.local_num_completed_
      = 0 := rfl
  refine ⟨hs.1, hs.2, ?_, ?_, hk.1⟩
  · rw [SillyUpdate_of_not_mpiStatus _ hj.1]
  · rw [hk.2, h0, zero_add]

/-! ### The owning block -/

/-- C13: `GetBlockPointer` throws exactly when the back-reference is expired,
that is, dangling or never set; otherwise it returns the live block the
reference resolves to, which after `SetBlockPointer` is the block of the most
recent call; it never returns a null block. -/
theorem GetBlockPointer_throws_iff_expired {MeshBlock BoundarySwarm : Type}
    (s : Swarm MeshBlock BoundarySwarm) (p1 p2 : WeakPtr MeshBlock) (b : MeshBlock) :
    ((∃ e, s.GetBlockPointer = Except.error e) ↔
      (s.pmy_block = WeakPtr.unset ∨ s.pmy_block = WeakPtr.dangling)) ∧
    (s.pmy_block = WeakPtr.live b → s.GetBlockPointer = Except.ok (some b)) ∧
    ((s.SetBlockPointer p1).SetBlockPointer (WeakPtr.live b)).GetBlockPointer =
      Except.ok (some b) ∧
    ((s.SetBlockPointer p1).SetBlockPointer p2).GetBlockPointer =
      (s.SetBlockPointer p2).GetBlockPointer ∧
    s.GetBlockPointer ≠ Except.ok none := by
  refine ⟨?_, ?_, rfl, rfl, ?_⟩
  · cases h : s.pmy_block <;> simp [Swarm.GetBlockPointer, WeakPtr.expired, h]
  · intro h
    simp [Swarm.GetBlockPointer, WeakPtr.expired, WeakPtr.lock, h]
  · cases h : s.pmy_block <;> simp [Swarm.GetBlockPointer, WeakPtr.expired, WeakPtr.lock, h]

/-- Witness for C13: a swarm whose back-reference was set to block 7. -/
theorem GetBlockPointer_throws_iff_expired_witness :
    ((Swarm.completedState 0).SetBlockPointer (WeakPtr.live 7)).GetBlockPointer =
      Except.ok (some 7) :=
  (GetBlockPointer_throws_iff_expired
    ((Swarm.completedState 0).SetBlockPointer (WeakPtr.live 7)) WeakPtr.unset
    WeakPtr.dangling 7).2.1 rfl

/-! ### Pool growth -/

/-- C14: `increasePoolMax` is `setPoolMax` applied to `2 * nmax_pool_` computed
as an `int`; for a capacity `0 < nmax_pool_ < 2^30` the requested capacity is
exactly twice the current one and strictly larger. -/
theorem increasePoolMax_requests_double {MeshBlock BoundarySwarm R : Type}
    (setPoolMax : Swarm MeshBlock BoundarySwarm → Int → R)
    (s : Swarm MeshBlock BoundarySwarm) :
    Swarm.increasePoolMax setPoolMax s =
      setPoolMax s ((2 * s.nmax_pool_ + 2147483648) % 4294967296 - 2147483648) ∧
    (0 < s.nmax_pool_ → s.nmax_pool_ < 1073741824 →
      Swarm.increasePoolMax setPoolMax s = setPoolMax s (2 * s.nmax_pool_) ∧
      s.nmax_pool_ < 2 * s.nmax_pool_ ∧
      wrap32 (2 * s.nmax_pool_) = 2 * s.nmax_pool_) := by
  refine ⟨rfl, ?_⟩
  intro h0 h1
  have hw : wrap32 (2 * s.nmax_pool_) = 2 * s.nmax_pool_ := by
    unfold wrap32
    omega
  refine ⟨?_, by omega, hw⟩
  unfold Swarm.increasePoolMax
  rw [hw]

/-- Witness for C14: a pool of capacity 4 requests capacity 8. -/
theorem increasePoolMax_requests_double_witness :
    Swarm.increasePoolMax (fun (_ : Swarm Unit Unit) (n : Int) => n)
        (Swarm.poolState 4 2 2) = 2 * (Swarm.poolState 4 2 2).nmax_pool_ ∧
    (Swarm.poolState 4 2 2).nmax_pool_ < 2 * (Swarm.poolState 4 2 2).nmax_pool_ ∧
    wrap32 (2 * (Swarm.poolState 4 2 2).nmax_pool_) = 2 * (Swarm.poolState 4 2 2).nmax_pool_ :=
  (increasePoolMax_requests_double (fun (_ : Swarm Unit Unit) (n : Int) => n)
    (Swarm.poolState 4 2 2)).2 (by decide) (by decide)

/-! ### The destination index after a lookup -/

/-- C16: after a call of `GetNeighborBlockIndex` for slot `n` that does not
fail and returns `r`, `IsOnCurrentMeshBlock n` holds exactly when `r = -1`;
after a call that fails the destination index of slot `n` is `-2` and
`IsOnCurrentMeshBlock n` is false. -/
theorem IsOnCurrentMeshBlock_after_GetNeighborBlockIndex
    (c : SwarmDeviceContext) (n : Int) (x y z : ℚ) :
    ((c.GetNeighborBlockIndex n x y z).failed = false →
      ∀ r, (c.GetNeighborBlockIndex n x y z).value = some r →
        ((c.GetNeighborBlockIndex n x y z).ctx.IsOnCurrentMeshBlock n = true ↔ r = -1)) ∧
    ((c.GetNeighborBlockIndex n x y z).failed = true →
      (c.GetNeighborBlockIndex n x y z).ctx.blockIndex_ n = -2 ∧
      (c.GetNeighborBlockIndex n x y z).ctx.IsOnCurrentMeshBlock n = false) := by
  constructor
  · intro _ r hr
    have hs := stored_of_value c n x y z r hr
    simp [IsOnCurrentMeshBlock, hs, this_block_]
  · intro hf
    have hv : (c.GetNeighborBlockIndex n x y z).value = some (-2) := by
      rw [result_of_failed c n x y z hf]
    have hs := stored_of_value c n x y z (-2) hv
    refine ⟨hs, ?_⟩
    simp [IsOnCurrentMeshBlock, hs, this_block_]

/-- Witness for C16: on the unit block in one dimension, `x = 1/4` returns the
table entry 1 for slot 3, and `x = 2` fails. -/
theorem IsOnCurrentMeshBlock_after_GetNeighborBlockIndex_witness :
    (((unitBlock 1).GetNeighborBlockIndex 3 (1 / 4) 0 0).ctx.IsOnCurrentMeshBlock 3 = true ↔
      (unitBlock 1).neighborIndices_ 0 0 1 = -1) ∧
    (((unitBlock 1).GetNeighborBlockIndex 3 2 0 0).ctx.blockIndex_ 3 = -2 ∧
      ((unitBlock 1).GetNeighborBlockIndex 3 2 0 0).ctx.IsOnCurrentMeshBlock 3 = false) :=
  ⟨(IsOnCurrentMeshBlock_after_GetNeighborBlockIndex (unitBlock 1) 3 (1 / 4) 0 0).1
      (failed_unit_quarter 3) _
      (unit_one_dim_lookup 3 (1 / 4) 1 bucket_unit_quarter (by decide) (by decide)).2,
   (IsOnCurrentMeshBlock_after_GetNeighborBlockIndex (unitBlock 1) 3 2 0 0).2
      (failed_unit_two 3)⟩

/-! ### The table read is in bounds -/

theorem neighborEntry_eq_read (c : SwarmDeviceContext) (i j k : Int) :
    c.neighborEntry i j k =
      c.readNeighborIndices (c.lookupIndex i j k).1 (c.lookupIndex i j k).2.1
        (c.lookupIndex i j k).2.2 := by
  unfold neighborEntry lookupIndex
  split_ifs <;> rfl

/-- C17: for `ndim` in `{1, 2, 3}` and every position, when
`GetNeighborBlockIndex` does not take the error branch, each of the three
indices at which it reads the table lies in `[0, 3]`, the read is defined and
a value is returned. -/
theorem GetNeighborBlockIndex_lookup_in_bounds (c : SwarmDeviceContext) (n : Int) (x y z : ℚ)
    (hn : c.ndim_ = 1 ∨ c.ndim_ = 2 ∨ c.ndim_ = 3)
    (hf : (c.GetNeighborBlockIndex n x y z).failed = false) :
    (0 ≤ (c.lookupIndex (bucket x c.x_min_ c.x_max_) (bucket y c.y_min_ c.y_max_)
        (bucket z c.z_min_ c.z_max_)).1 ∧
      (c.lookupIndex (bucket x c.x_min_ c.x_max_) (bucket y c.y_min_ c.y_max_)
        (bucket z c.z_min_ c.z_max_)).1 ≤ 3) ∧
    (0 ≤ (c.lookupIndex (bucket x c.x_min_ c.x_max_) (bucket y c.y_min_ c.y_max_)
        (bucket z c.z_min_ c.z_max_)).2.1 ∧
      (c.lookupIndex (bucket x c.x_min_ c.x_max_) (bucket y c.y_min_ c.y_max_)
        (bucket z c.z_min_ c.z_max_)).2.1 ≤ 3) ∧
    (0 ≤ (c.lookupIndex (bucket x c.x_min_ c.x_max_) (bucket y c.y_min_ c.y_max_)
        (bucket z c.z_min_ c.z_max_)).2.2 ∧
      (c.lookupIndex (bucket x c.x_min_ c.x_max_) (bucket y c.y_min_ c.y_max_)
        (bucket z c.z_min_ c.z_max_)).2.2 ≤ 3) ∧
    c.neighborEntry (bucket x c.x_min_ c.x_max_) (bucket y c.y_min_ c.y_max_)
        (bucket z c.z_min_ c.z_max_) ≠ none ∧
    (c.GetNeighborBlockIndex n x y z).value ≠ none := by
  have hg := (failed_eq_false_iff c n x y z).mp hf
  have hb : (0 ≤ (c.lookupIndex (bucket x c.x_min_ c.x_max_) (bucket y c.y_min_ c.y_max_)
        (bucket z c.z_min_ c.z_max_)).1 ∧
      (c.lookupIndex (bucket x c.x_min_ c.x_max_) (bucket y c.y_min_ c.y_max_)
        (bucket z c.z_min_ c.z_max_)).1 ≤ 3) ∧
    (0 ≤ (c.lookupIndex (bucket x c.x_min_ c.x_max_) (bucket y c.y_min_ c.y_max_)
        (bucket z c.z_min_ c.z_max_)).2.1 ∧
      (c.lookupIndex (bucket x c.x_min_ c.x_max_) (bucket y c.y_min_ c.y_max_)
        (bucket z c.z_min_ c.z_max_)).2.1 ≤ 3) ∧
    (0 ≤ (c.lookupIndex (bucket x c.x_min_ c.x_max_) (bucket y c.y_min_ c.y_max_)
        (bucket z c.z_min_ c.z_max_)).2.2 ∧
      (c.lookupIndex (bucket x c.x_min_ c.x_max_) (bucket y c.y_min_ c.y_max_)
        (bucket z c.z_min_ c.z_max_)).2.2 ≤ 3) := by
    rcases hn with h | h | h
    · simp only [lookupIndex, h, if_true]
      omega
    · have h1 : c.ndim_ ≠ 1 := by omega
      simp only [lookupIndex, h, if_true]
      norm_num
      omega
    · have h1 : c.ndim_ ≠ 1 := by omega
      have h2 : c.ndim_ ≠ 2 := by omega
      simp only [lookupIndex, h]
      norm_num
      omega
  have he : c.neighborEntry (bucket x c.x_min_ c.x_max_) (bucket y c.y_min_ c.y_max_)
      (bucket z c.z_min_ c.z_max_) ≠ none := by
    rw [neighborEntry_eq_read]
    unfold readNeighborIndices
    rw [if_pos ⟨hb.1.1, hb.1.2, hb.2.1.1, hb.2.1.2, hb.2.2.1, hb.2.2.2⟩]
    exact Option.some_ne_none _
  refine ⟨hb.1, hb.2.1, hb.2.2, he, ?_⟩
  rw [value_of_not_failed c n x y z hf]
  exact he

/-- Witness for C17: the position `(1/4, 9/10, 1/10)` on the unit block in
three dimensions. -/
theorem GetNeighborBlockIndex_lookup_in_bounds_witness :
    ((unitBlock 3).GetNeighborBlockIndex 0 (1 / 4) (9 / 10) (1 / 10)).value ≠ none :=
  (GetNeighborBlockIndex_lookup_in_bounds (unitBlock 3) 0 (1 / 4) (9 / 10) (1 / 10)
    (Or.inr (Or.inr rfl)) (unit_not_failed_sample 3 0)).2.2.2.2

/-! ### The divisor of the packing efficiency -/

/-- C18: the empty, fully compacted pool `num_active = 0`,
`max_active_index = -1` (capacity 4) satisfies `0 <= num_active <=
max_active_index + 1 <= nmax_pool`, yet the divisor `max_active_index + 1` of
`get_packing_efficiency` is zero there and the integer division is undefined;
it is the state `Defrag` leaves when it empties a pool. -/
theorem get_packing_efficiency_undefined_on_empty_pool :
    (0 ≤ (Swarm.poolState 4 (-1) 0).num_active_ ∧
      (Swarm.poolState 4 (-1) 0).num_active_ ≤ (Swarm.poolState 4 (-1) 0).max_active_index_ + 1 ∧
      (Swarm.poolState 4 (-1) 0).max_active_index_ + 1 ≤ (Swarm.poolState 4 (-1) 0).nmax_pool_) ∧
    (Swarm.poolState 4 (-1) 0).max_active_index_ + 1 = 0 ∧
    (Swarm.poolState 4 (-1) 0).get_packing_efficiency = none ∧
    (Swarm.Defrag (Swarm.fresh () 4 : Swarm Unit Unit)).get_packing_efficiency = none := by
  refine ⟨by decide, by decide, ?_, ?_⟩
  · simp [Swarm.get_packing_efficiency, Swarm.poolState]
  · simp [Swarm.get_packing_efficiency, Swarm.Defrag, Swarm.fresh]

/-! ### The pool invariant -/

theorem mem_slots (lo hi n : Int) : n ∈ Swarm.slots lo hi ↔ lo ≤ n ∧ n < hi := by
  simp only [Swarm.slots, List.mem_map, List.mem_range]
  constructor
  · rintro ⟨i, hi1, rfl⟩
    omega
  · intro h
    exact ⟨(n - lo).toNat, by omega, by omega⟩

theorem length_slots (lo hi : Int) : (Swarm.slots lo hi).length = (hi - lo).toNat := by
  simp [Swarm.slots]

theorem nodup_slots (lo hi : Int) : (Swarm.slots lo hi).Nodup := by
  unfold Swarm.slots
  apply List.Nodup.map _ (List.nodup_range _)
  intro a b h
  simp only at h
  omega

/-- A list that holds every integer of `[lo, hi)` has at least `hi - lo`
entries. -/
theorem length_ge_of_slots_subset (l : List Int) (lo hi : Int)
    (h : ∀ n : Int, lo ≤ n → n < hi → n ∈ l) : hi - lo ≤ (l.length : Int) := by
  have hsub : Swarm.slots lo hi ⊆ l := by
    intro n hn
    rw [mem_slots] at hn
    exact h n hn.1 hn.2
  have hlen := (List.subperm_of_subset (nodup_slots lo hi) hsub).length_le
  rw [length_slots] at hlen
  omega

theorem le_foldl_max (l : List Int) (a : Int) : a ≤ l.foldl max a := by
  induction l generalizing a with
  | nil => exact le_refl a
  | cons x xs ih => exact le_trans (le_max_left a x) (ih (max a x))

theorem mem_le_foldl_max (l : List Int) (a x : Int) (hx : x ∈ l) : x ≤ l.foldl max a := by
  induction l generalizing a with
  | nil => cases hx
  | cons y ys ih =>
    rcases List.mem_cons.mp hx with h | h
    · subst h
      exact le_trans (le_max_right a x) (le_foldl_max ys (max a x))
    · exact ih (max a y) h

theorem foldl_max_le (l : List Int) (a b : Int) (ha : a ≤ b) (hl : ∀ x ∈ l, x ≤ b) :
    l.foldl max a ≤ b := by
  induction l generalizing a with
  | nil => exact ha
  | cons y ys ih =>
    exact ih (max a y) (max_le ha (hl y (List.mem_cons_self y ys)))
      (fun x hx => hl x (List.mem_cons_of_mem y hx))

/-- The counters are bounded by the free list: if every slot above `maxIdx`
is free and `maxIdx >= -1`, then `num <= maxIdx + 1`. -/
theorem num_le_of_free (num maxIdx nmax : Int) (free : List Int)
    (hA : num + (free.length : Int) ≤ nmax)
    (hB : ∀ n : Int, 0 ≤ n → maxIdx < n → n < nmax → n ∈ free) (hM : -1 ≤ maxIdx) :
    num ≤ maxIdx + 1 := by
  have h := length_ge_of_slots_subset free (maxIdx + 1) nmax
    (fun n h1 h2 => hB n (by omega) (by omega) h2)
  omega

theorem PoolInvOn_fresh (nmax : Int) (h : 1 ≤ nmax) :
    Swarm.PoolInvOn 0 0 nmax (Swarm.slots 0 nmax) := by
  refine ⟨?_, ?_, by omega, ?_, h, by omega⟩
  · rw [length_slots]; omega
  · intro n h0 _ h2
    exact (mem_slots 0 nmax n).mpr ⟨h0, h2⟩
  · intro n hn
    exact (mem_slots 0 nmax n).mp hn

theorem PoolInvOn_grow (num maxIdx nmax : Int) (free : List Int) (n1 : Int)
    (hI : Swarm.PoolInvOn num maxIdx nmax free) (hn : nmax < n1) :
    Swarm.PoolInvOn num maxIdx n1 (free ++ Swarm.slots nmax n1) := by
  obtain ⟨hA, hB, hC, hD, hE, hF⟩ := hI
  refine ⟨?_, ?_, by omega, ?_, by omega, hF⟩
  · rw [List.length_append, length_slots]
    push_cast
    omega
  · intro n h0 h1 h2
    rw [List.mem_append]
    by_cases hlt : n < nmax
    · exact Or.inl (hB n h0 h1 hlt)
    · exact Or.inr ((mem_slots nmax n1 n).mpr ⟨by omega, h2⟩)
  · intro n hmem
    rcases List.mem_append.mp hmem with h | h
    · have := hD n h
      omega
    · have := (mem_slots nmax n1 n).mp h
      omega

theorem PoolInvOn_remove (num maxIdx nmax : Int) (free removed : List Int)
    (hI : Swarm.PoolInvOn num maxIdx nmax free)
    (hr : ∀ n ∈ removed, 0 ≤ n ∧ n < nmax) :
    Swarm.PoolInvOn (num - (removed.length : Int)) maxIdx nmax (free ++ removed) := by
  obtain ⟨hA, hB, hC, hD, hE, hF⟩ := hI
  refine ⟨?_, ?_, hC, ?_, hE, by omega⟩
  · rw [List.length_append]
    push_cast
    omega
  · intro n h0 h1 h2
    exact List.mem_append.mpr (Or.inl (hB n h0 h1 h2))
  · intro n hmem
    rcases List.mem_append.mp hmem with h | h
    · exact hD n h
    · exact hr n h

theorem PoolInvOn_defrag (num maxIdx nmax : Int) (free : List Int)
    (hI : Swarm.PoolInvOn num maxIdx nmax free) :
    Swarm.PoolInvOn num (num - 1) nmax (Swarm.slots (max num 0) nmax) := by
  obtain ⟨hA, hB, hC, hD, hE, hF⟩ := hI
  have hlen : (0 : Int) ≤ (free.length : Int) := Int.ofNat_nonneg _
  refine ⟨?_, ?_, by omega, ?_, hE, by omega⟩
  · rw [length_slots]
    omega
  · intro n h0 h1 h2
    exact (mem_slots _ nmax n).mpr ⟨by omega, h2⟩
  · intro n hmem
    have := (mem_slots _ nmax n).mp hmem
    omega

theorem PoolInvOn_take (num maxIdx nmax : Int) (free : List Int) (count : Int)
    (hI : Swarm.PoolInvOn num maxIdx nmax free) (h0 : 0 ≤ count)
    (hroom : count.toNat ≤ free.length ∨ num + count ≤ nmax) :
    Swarm.PoolInvOn (num + count) ((free.take count.toNat).foldl max maxIdx) nmax
      (free.drop count.toNat) := by
  obtain ⟨hA, hB, hC, hD, hE, hF⟩ := hI
  have hA2 : num + count + ((free.drop count.toNat).length : Int) ≤ nmax := by
    rw [List.length_drop]
    rcases hroom with h | h <;> omega
  have hB2 : ∀ n : Int, 0 ≤ n → (free.take count.toNat).foldl max maxIdx < n → n < nmax →
      n ∈ free.drop count.toNat := by
    intro n hn0 hn1 hn2
    have hmax : maxIdx < n := lt_of_le_of_lt (le_foldl_max _ maxIdx) hn1
    have hmem : n ∈ free.take count.toNat ++ free.drop count.toNat := by
      rw [List.take_append_drop]
      exact hB n hn0 hmax hn2
    rcases List.mem_append.mp hmem with h | h
    · have := mem_le_foldl_max _ maxIdx n h
      omega
    · exact h
  have hC2 : (free.take count.toNat).foldl max maxIdx + 1 ≤ nmax := by
    have := foldl_max_le (free.take count.toNat) maxIdx (nmax - 1) (by omega)
      (fun x hx => by
        have := hD x (List.mem_of_mem_take hx)
        omega)
    omega
  refine ⟨hA2, hB2, hC2, ?_, hE, ?_⟩
  · intro n hmem
    exact hD n (List.mem_of_mem_drop hmem)
  · by_cases hM : -1 ≤ (free.take count.toNat).foldl max maxIdx
    · exact num_le_of_free _ _ nmax _ hA2 hB2 hM
    · have hlow : maxIdx < -1 :=
        lt_of_le_of_lt (le_foldl_max (free.take count.toNat) maxIdx) (by omega)
      have hzero : (0 : Int) ∈ free := hB 0 (le_refl 0) (by omega) (by omega)
      have hc : count = 0 := by
        by_contra hne
        have hpos : 0 < count.toNat := by omega
        cases hfree : free with
        | nil => rw [hfree] at hzero; cases hzero
        | cons x xs =>
          have hx : x ∈ free.take count.toNat := by
            rw [hfree]
            obtain ⟨m, hm⟩ := Nat.exists_eq_succ_of_ne_zero (Nat.pos_iff_ne_zero.mp hpos)
            rw [hm, List.take_succ_cons]
            exact List.mem_cons_self x _
          have h1 := mem_le_foldl_max _ maxIdx x hx
          have h2 := hD x (by rw [hfree]; exact List.mem_cons_self x xs)
          omega
      have hfold : (free.take count.toNat).foldl max maxIdx = maxIdx := by
        rw [hc]
        rfl
      rw [hfold, hc]
      omega

theorem PoolInv_setPoolMax {MeshBlock BoundarySwarm : Type}
    (s s1 : Swarm MeshBlock BoundarySwarm) (n : Int)
    (h : Swarm.setPoolMax s n = Except.ok s1) (hI : Swarm.PoolInv s) :
    Swarm.PoolInv s1 ∧ s1.num_active_ = s.num_active_ ∧ s.nmax_pool_ < s1.nmax_pool_ := by
  unfold Swarm.setPoolMax at h
  split_ifs at h with hc
  have hs := Except.ok.inj h
  subst hs
  have hlt : s.nmax_pool_ < n := by omega
  exact ⟨PoolInvOn_grow _ _ _ _ n hI hlt, rfl, hlt⟩

theorem PoolInv_growPool {MeshBlock BoundarySwarm : Type} (fuel : Nat) :
    ∀ (s s1 : Swarm MeshBlock BoundarySwarm) (target : Int),
      Swarm.growPool fuel s target = Except.ok s1 → Swarm.PoolInv s →
      Swarm.PoolInv s1 ∧ s1.num_active_ = s.num_active_ ∧ target ≤ s1.nmax_pool_ := by
  induction fuel with
  | zero =>
    intro s s1 target h hI
    unfold Swarm.growPool at h
    split_ifs at h with hc
    have hs := Except.ok.inj h
    subst hs
    exact ⟨hI, rfl, hc⟩
  | succ k ih =>
    intro s s1 target h hI
    unfold Swarm.growPool at h
    split_ifs at h with hc
    · have hs := Except.ok.inj h
      subst hs
      exact ⟨hI, rfl, hc⟩
    · cases hinc : Swarm.increasePoolMax Swarm.setPoolMax s with
      | error e =>
        rw [hinc] at h
        cases h
      | ok s2 =>
        rw [hinc] at h
        have h2 := PoolInv_setPoolMax s s2 _ hinc hI
        have h3 := ih s2 s1 target h h2.1
        exact ⟨h3.1, h3.2.1.trans h2.2.1, h3.2.2⟩

theorem PoolInv_AddEmptyParticles {MeshBlock BoundarySwarm : Type}
    (s : Swarm MeshBlock BoundarySwarm) (num_to_add : Int)
    (r : Swarm MeshBlock BoundarySwarm × List Int)
    (h : Swarm.AddEmptyParticles s num_to_add = Except.ok r) (hI : Swarm.PoolInv s) :
    Swarm.PoolInv r.1 := by
  unfold Swarm.AddEmptyParticles at h
  by_cases hneg : num_to_add < 0
  · rw [if_pos hneg] at h
    cases h
  · rw [if_neg hneg] at h
    by_cases hshort : s.free_indices_.length < num_to_add.toNat
    · simp only [hshort, if_true] at h
      cases hg : Swarm.growPool 64 s (s.num_active_ + num_to_add) with
      | error e =>
        rw [hg] at h
        cases h
      | ok s1 =>
        rw [hg] at h
        have hr := Except.ok.inj h
        subst hr
        have h1 := PoolInv_growPool 64 s s1 _ hg hI
        exact PoolInvOn_take _ _ _ _ num_to_add h1.1 (by omega)
          (Or.inr (by rw [h1.2.1]; exact h1.2.2))
    · simp only [hshort, if_false] at h
      have hr := Except.ok.inj h
      subst hr
      exact PoolInvOn_take _ _ _ _ num_to_add hI (by omega) (Or.inl (by omega))

theorem PoolInv_RemoveMarkedParticles {MeshBlock BoundarySwarm : Type}
    (s : Swarm MeshBlock BoundarySwarm) (hI : Swarm.PoolInv s) :
    Swarm.PoolInv (Swarm.RemoveMarkedParticles s) := by
  apply PoolInvOn_remove _ _ _ _ _ hI
  intro n hn
  exact (mem_slots 0 s.nmax_pool_ n).mp (List.mem_of_mem_filter hn)

theorem PoolInv_Defrag {MeshBlock BoundarySwarm : Type}
    (s : Swarm MeshBlock BoundarySwarm) (hI : Swarm.PoolInv s) :
    Swarm.PoolInv (Swarm.Defrag s) :=
  PoolInvOn_defrag _ _ _ _ hI

theorem PoolInv_run {MeshBlock BoundarySwarm : Type}
    (s : Swarm MeshBlock BoundarySwarm) (op : Swarm.PoolOp) (hI : Swarm.PoolInv s) :
    Swarm.PoolInv (Swarm.PoolOp.run s op) := by
  cases op with
  | add num_to_add =>
    show Swarm.PoolInv (match Swarm.AddEmptyParticles s num_to_add with
      | Except.ok r => r.1
      | Except.error _ => s)
    split
    · next r ha => exact PoolInv_AddEmptyParticles s num_to_add r ha hI
    · exact hI
  | mark n => exact hI
  | remove => exact PoolInv_RemoveMarkedParticles s hI
  | defrag => exact PoolInv_Defrag s hI

theorem PoolInv_runPool {MeshBlock BoundarySwarm : Type} (ops : List Swarm.PoolOp) :
    ∀ s : Swarm MeshBlock BoundarySwarm, Swarm.PoolInv s → Swarm.PoolInv (Swarm.runPool s ops) := by
  induction ops with
  | nil => intro s hI; exact hI
  | cons op rest ih =>
    intro s hI
    exact ih (Swarm.PoolOp.run s op) (PoolInv_run s op hI)

/-- The scenario of the specification: a pool of capacity 4 gets 3 particles
(`num_active = 3`, `max_active_index = 2`); slot 1 is marked and removed
(`num_active = 2`, slot 1 free, `max_active_index` still 2); after `Defrag`
`num_active = 2`, `max_active_index = 1` and the free list is `[2, 3]`. -/
theorem pool_scenario :
    ((Swarm.runPool (Swarm.fresh () 4 : Swarm Unit Unit)
        [Swarm.PoolOp.add 3]).num_active_ = 3 ∧
     (Swarm.runPool (Swarm.fresh () 4 : Swarm Unit Unit)
        [Swarm.PoolOp.add 3]).max_active_index_ = 2) ∧
    ((Swarm.runPool (Swarm.fresh () 4 : Swarm Unit Unit)
        [Swarm.PoolOp.add 3, Swarm.PoolOp.mark 1, Swarm.PoolOp.remove]).num_active_ = 2 ∧
     (Swarm.runPool (Swarm.fresh () 4 : Swarm Unit Unit)
        [Swarm.PoolOp.add 3, Swarm.PoolOp.mark 1, Swarm.PoolOp.remove]).max_active_index_ = 2 ∧
     1 ∈ (Swarm.runPool (Swarm.fresh () 4 : Swarm Unit Unit)
        [Swarm.PoolOp.add 3, Swarm.PoolOp.mark 1, Swarm.PoolOp.remove]).free_indices_) ∧
    ((Swarm.runPool (Swarm.fresh () 4 : Swarm Unit Unit)
        [Swarm.PoolOp.add 3, Swarm.PoolOp.mark 1, Swarm.PoolOp.remove,
          Swarm.PoolOp.defrag]).num_active_ = 2 ∧
     (Swarm.runPool (Swarm.fresh () 4 : Swarm Unit Unit)
        [Swarm.PoolOp.add 3, Swarm.PoolOp.mark 1, Swarm.PoolOp.remove,
          Swarm.PoolOp.defrag]).max_active_index_ = 1 ∧
     (Swarm.runPool (Swarm.fresh () 4 : Swarm Unit Unit)
        [Swarm.PoolOp.add 3, Swarm.PoolOp.mark 1, Swarm.PoolOp.remove,
          Swarm.PoolOp.defrag]).free_indices_ = [2, 3]) := by
  decide

/-- C15, as stated, fails: a swarm freshly constructed with capacity 0 has
`num_active = 0`, `max_active_index = 0` and `nmax_pool = 0`, so already after
the empty sequence of operations, and again after a rejected
`AddEmptyParticles(1)`, `max_active_index + 1 <= nmax_pool` does not hold. -/
theorem pool_counters_zero_capacity_counterexample :
    ¬ ((Swarm.runPool (Swarm.fresh () 0 : Swarm Unit Unit) []).num_active_ ≤
        (Swarm.runPool (Swarm.fresh () 0 : Swarm Unit Unit) []).max_active_index_ + 1 ∧
      (Swarm.runPool (Swarm.fresh () 0 : Swarm Unit Unit) []).max_active_index_ + 1 ≤
        (Swarm.runPool (Swarm.fresh () 0 : Swarm Unit Unit) []).nmax_pool_) ∧
    ¬ ((Swarm.runPool (Swarm.fresh () 0 : Swarm Unit Unit)
          [Swarm.PoolOp.add 1]).num_active_ ≤
        (Swarm.runPool (Swarm.fresh () 0 : Swarm Unit Unit)
          [Swarm.PoolOp.add 1]).max_active_index_ + 1 ∧
      (Swarm.runPool (Swarm.fresh () 0 : Swarm Unit Unit)
          [Swarm.PoolOp.add 1]).max_active_index_ + 1 ≤
        (Swarm.runPool (Swarm.fresh () 0 : Swarm Unit Unit)
          [Swarm.PoolOp.add 1]).nmax_pool_) := by
  decide

/-- C15, amended: after any sequence of `AddEmptyParticles`,
`RemoveMarkedParticles` and `Defrag`, interleaved with any marking of slots
for removal, applied to a swarm freshly constructed with a capacity of at
least one, `num_active <= max_active_index + 1 <= nmax_pool` holds. -/
theorem pool_counters_ordered_after_operations {MeshBlock BoundarySwarm : Type}
    (vbvar : BoundarySwarm) (nmax_pool_in : Int) (hcap : 1 ≤ nmax_pool_in)
    (ops : List Swarm.PoolOp) :
    (Swarm.runPool (Swarm.fresh vbvar nmax_pool_in : Swarm MeshBlock BoundarySwarm)
        ops).num_active_ ≤
      (Swarm.runPool (Swarm.fresh vbvar nmax_pool_in : Swarm MeshBlock BoundarySwarm)
        ops).max_active_index_ + 1 ∧
    (Swarm.runPool (Swarm.fresh vbvar nmax_pool_in : Swarm MeshBlock BoundarySwarm)
        ops).max_active_index_ + 1 ≤
      (Swarm.runPool (Swarm.fresh vbvar nmax_pool_in : Swarm MeshBlock BoundarySwarm)
        ops).nmax_pool_ := by
  have hI := PoolInv_runPool ops (Swarm.fresh vbvar nmax_pool_in : Swarm MeshBlock BoundarySwarm)
    (PoolInvOn_fresh nmax_pool_in hcap)
  exact ⟨hI.2.2.2.2.2, hI.2.2.1⟩

/-- Witness for C15 (amended): the scenario of the specification, a pool of capacity 4
to which 3 particles are added, slot 1 is marked and removed, and which is
then defragmented and asked for 7 more particles. -/
theorem pool_counters_ordered_after_operations_witness :
    (Swarm.runPool (Swarm.fresh () 4 : Swarm Unit Unit)
        [Swarm.PoolOp.add 3, Swarm.PoolOp.mark 1, Swarm.PoolOp.remove, Swarm.PoolOp.defrag,
          Swarm.PoolOp.add 7]).num_active_ ≤
      (Swarm.runPool (Swarm.fresh () 4 : Swarm Unit Unit)
        [Swarm.PoolOp.add 3, Swarm.PoolOp.mark 1, Swarm.PoolOp.remove, Swarm.PoolOp.defrag,
          Swarm.PoolOp.add 7]).max_active_index_ + 1 ∧
    (Swarm.runPool (Swarm.fresh () 4 : Swarm Unit Unit)
        [Swarm.PoolOp.add 3, Swarm.PoolOp.mark 1, Swarm.PoolOp.remove, Swarm.PoolOp.defrag,
          Swarm.PoolOp.add 7]).max_active_index_ + 1 ≤
      (Swarm.runPool (Swarm.fresh () 4 : Swarm Unit Unit)
        [Swarm.PoolOp.add 3, Swarm.PoolOp.mark 1, Swarm.PoolOp.remove, Swarm.PoolOp.defrag,
          Swarm.PoolOp.add 7]).nmax_pool_ :=
  pool_counters_ordered_after_operations () 4 (by decide) _

end parthenon
